import Mathlib

/-!
Shallow embedding of the Telink SWire sigrok protocol decoder (`pd.py`).

The decoder consumes a stream of falling/rising edge sample indices and
produces annotation events.  We model one loop iteration of `Decoder.decode`
(a fall edge followed by a rise edge) as a pure step function on an explicit
decoder state, and the whole run as a fold over the list of (fall, rise)
pulse pairs.  Sample indices are integers; the unit time and all timing
thresholds are rationals (Python computes them with `/`, i.e. real division).
-/

namespace SWire

/-- Annotation output indices, mirroring the `ANN_*` constants in `pd.py`. -/
def ANN_BIT : Nat := 0

def ANN_CMD_BIT : Nat := 1

def ANN_BYTE : Nat := 2

def ANN_START : Nat := 3

def ANN_ADDR : Nat := 4

def ANN_RW : Nat := 5

def ANN_DATA_M : Nat := 6

def ANN_DATA_S : Nat := 7

def ANN_END : Nat := 8

def ANN_TRIG : Nat := 9

def ANN_ERROR : Nat := 10

/-- Decoder states, mirroring the `ST_*` constants in `pd.py`. -/
inductive St
  | IDLE
  | ADDR_0
  | ADDR_N
  | RW_ID
  | DATA
  | READ_TRIG
  | READ_DATA
  | SLAVE_END
  | READ_TRIG_OR_END
  deriving DecidableEq, Repr

/-- One emitted annotation: `self.put(ss, es, self.out_ann, [idx, data])`. -/
structure Ann where
  ss : Int
  es : Int
  idx : Nat
  labels : List String
  deriving DecidableEq, Repr

/-- The mutable fields of the `Decoder` instance (minus the sample rate,
which is passed separately to `decode`). -/
structure DState where
  bits : List (Nat × Int × Int)
  state : St
  addr : Nat
  addr_start : Int
  addr_bytes_remaining : Int
  is_read : Bool
  errors : Nat
  deriving DecidableEq, Repr

/-- The state set up by `Decoder.reset` (fresh construction). -/
def initState : DState :=
  { bits := [], state := .IDLE, addr := 0, addr_start := 0,
    addr_bytes_remaining := 0, is_read := false, errors := 0 }

/-- `Decoder._resync`. -/
def resync (s : DState) : DState :=
  { s with bits := [], errors := 0, state := .IDLE, is_read := false }

/-- Default tuple used with `List.getD` for list accesses that the source
guards by length checks. -/
def d0 : Nat × Int × Int := (0, 0, 0)

/-- Python `'0x%0<width>X' % v`: uppercase hex, zero padded to `width`
digits, prefixed with `0x`. -/
def pyHex (width v : Nat) : String :=
  let ds := (Nat.toDigits 16 v).map Char.toUpper
  "0x" ++ String.mk (List.replicate (width - ds.length) '0' ++ ds)

/-- The byte accumulation loop `byte_val = (byte_val << 1) | bits[i][0]`
over a list of bit tuples. -/
def byteFold (l : List (Nat × Int × Int)) : Nat :=
  l.foldl (fun a b => (a <<< 1) ||| b.1) 0

/-- The same accumulation over plain bit values. -/
def bitFold (l : List Nat) : Nat :=
  l.foldl (fun a b => (a <<< 1) ||| b) 0

/-- `Decoder._decode_slave_byte`. -/
def decode_slave_byte (s : DState) : DState × List Ann × Bool :=
  if s.bits.length < 8 then (s, [], false)
  else
    let byte_val := byteFold (s.bits.take 8)
    let ss := (s.bits.getD 0 d0).2.1
    let es := (s.bits.getD 7 d0).2.2
    ({ s with bits := [] },
     [⟨ss, es, ANN_BYTE, [pyHex 2 byte_val]⟩,
      ⟨ss, es, ANN_DATA_S, [pyHex 2 byte_val]⟩],
     true)

/-- `Decoder._decode_byte`.  `w` is the `addr_bytes` option value. -/
def decode_byte (w : Nat) (s : DState) : DState × List Ann × Bool :=
  if s.bits.length < 9 then (s, [], false)
  else
    let cmd := (s.bits.getD 0 d0).1
    let byte_val := byteFold ((s.bits.drop 1).take 8)
    let ss := (s.bits.getD 0 d0).2.1
    let es := (s.bits.getD 8 d0).2.2
    if cmd = 1 ∧ byte_val = 0x5A then
      ({ s with
          state := .ADDR_0, addr_bytes_remaining := (w : Int), addr := 0,
          bits := [], errors := 0 },
       (if s.state ≠ St.IDLE then
          [⟨ss, es, ANN_ERROR, ["Unexpected START", "RESYNC"]⟩]
        else []) ++
         [⟨ss, es, ANN_BYTE, [pyHex 2 byte_val]⟩,
          ⟨ss, es, ANN_START, ["START", "S"]⟩],
       true)
    else
      let byteAnn : Ann := ⟨ss, es, ANN_BYTE, [pyHex 2 byte_val]⟩
      if cmd = 1 then
        if byte_val = 0xFF then
          ({ s with state := .IDLE, is_read := false, bits := [] },
           [byteAnn, ⟨ss, es, ANN_END, ["END", "E"]⟩], true)
        else
          ({ s with state := .IDLE, is_read := false, bits := [] },
           [byteAnn,
            ⟨ss, es, ANN_ERROR, ["Invalid CMD: " ++ pyHex 2 byte_val, "BAD CMD"]⟩],
           true)
      else if s.state = .IDLE then
        ({ s with bits := [] },
         [byteAnn, ⟨ss, es, ANN_ERROR, ["Missing START", "NO START"]⟩], true)
      else if s.state = .ADDR_0 then
        let rem := s.addr_bytes_remaining - 1
        if rem > 0 then
          ({ s with
              addr := byte_val, addr_start := ss,
              addr_bytes_remaining := rem, state := .ADDR_N, bits := [] },
           [byteAnn], true)
        else
          ({ s with
              addr := byte_val, addr_start := ss,
              addr_bytes_remaining := rem, state := .RW_ID, bits := [] },
           [byteAnn,
            ⟨ss, es, ANN_ADDR, ["ADDR: " ++ pyHex 2 byte_val, pyHex 2 byte_val]⟩],
           true)
      else if s.state = .ADDR_N then
        let addr2 := (s.addr <<< 8) ||| byte_val
        let rem := s.addr_bytes_remaining - 1
        if rem = 0 then
          ({ s with
              addr := addr2, addr_bytes_remaining := rem,
              state := .RW_ID, bits := [] },
           [byteAnn,
            ⟨s.addr_start, es, ANN_ADDR,
             ["ADDR: " ++ pyHex (w * 2) addr2, pyHex (w * 2) addr2]⟩],
           true)
        else
          ({ s with addr := addr2, addr_bytes_remaining := rem, bits := [] },
           [byteAnn], true)
      else if s.state = .RW_ID then
        let ir : Bool := decide ((byte_val &&& 0x80) ≠ 0)
        ({ s with
            is_read := ir,
            state := if ir then .READ_TRIG else .DATA, bits := [] },
         [byteAnn,
          ⟨ss, es, ANN_RW,
           [(if ir then "R" else "W") ++ " ID:" ++ toString (byte_val &&& 0x7F),
            if ir then "R" else "W"]⟩],
         true)
      else
        ({ s with bits := [] },
         [byteAnn, ⟨ss, es, ANN_DATA_M, [pyHex 2 byte_val]⟩], true)

/-- The valid-0 window `unit * 0.5 <= low_time <= unit * 1.5`. -/
def validLow0 (u lt : ℚ) : Prop := u * 0.5 ≤ lt ∧ lt ≤ u * 1.5

/-- The valid-1 window `unit * 3.5 <= low_time <= unit * 4.5`. -/
def validLow1 (u lt : ℚ) : Prop := u * 3.5 ≤ lt ∧ lt ≤ u * 4.5

instance (u lt : ℚ) : Decidable (validLow0 u lt) :=
  inferInstanceAs (Decidable (_ ∧ _))

instance (u lt : ℚ) : Decidable (validLow1 u lt) :=
  inferInstanceAs (Decidable (_ ∧ _))

/-- The timing classifier of `Decoder.decode`: `None` for a timing error,
otherwise the bit value chosen by the `thresh = unit * 2.5` comparison. -/
def classifyLow (u lt : ℚ) : Option Nat :=
  if validLow0 u lt ∨ validLow1 u lt then
    some (if lt > u * 2.5 then 1 else 0)
  else none

/-- Python `int()` on a (here nonnegative-in-practice) rational: truncation
toward zero, used for `bit_end = int(fall + unit * 5)`. -/
def pytrunc (x : ℚ) : Int := if 0 ≤ x then ⌊x⌋ else ⌈x⌉

/-- The fixed bit slot end `int(fall + unit * 5)`. -/
def bitEnd (u : ℚ) (fall : Int) : Int := pytrunc ((fall : ℚ) + u * 5)

/-- Everything `Decoder.decode` does with one pulse after the two `wait`
calls: timing classification, error counting, and the state dispatch. -/
def classifyStep (u : ℚ) (w : Nat) (s : DState) (fall rise : Int) :
    DState × List Ann :=
  let low_time : ℚ := ((rise - fall : Int) : ℚ)
  match classifyLow u low_time with
  | none =>
      let s1 := { s with errors := s.errors + 1 }
      (if s1.errors ≥ 3 then resync s1 else s1,
       [⟨fall, rise, ANN_ERROR, ["Bad timing", "TIME"]⟩])
  | some bit =>
      let s0 := { s with errors := 0 }
      let be : Int := bitEnd u fall
      if s0.state = .READ_TRIG then
        ({ s0 with state := .READ_DATA },
         [⟨fall, rise, ANN_TRIG, ["Trigger", "T", ">"]⟩])
      else if s0.state = .READ_DATA then
        let s1 := { s0 with bits := s0.bits ++ [(bit, fall, be)] }
        if s1.bits.length = 8 then
          let r := decode_slave_byte s1
          ({ r.1 with state := .SLAVE_END },
           ⟨fall, be, ANN_BIT, [toString bit]⟩ :: r.2.1)
        else
          (s1, [⟨fall, be, ANN_BIT, [toString bit]⟩])
      else if s0.state = .SLAVE_END then
        ({ s0 with state := .READ_TRIG_OR_END }, [])
      else if s0.state = .READ_TRIG_OR_END then
        if bit = 1 then
          ({ s0 with bits := s0.bits ++ [(bit, fall, be)], state := .DATA },
           [⟨fall, be, ANN_CMD_BIT, [toString bit]⟩])
        else
          ({ s0 with state := .READ_DATA },
           [⟨fall, rise, ANN_TRIG, ["Trigger", "T", ">"]⟩])
      else
        if s0.bits.length = 9 then
          let r := decode_byte w s0
          (r.1, r.2.1)
        else
          let idx := if s0.bits.length = 0 then ANN_CMD_BIT else ANN_BIT
          ({ s0 with bits := s0.bits ++ [(bit, fall, be)] },
           [⟨fall, be, idx, [toString bit]⟩])

/-- The frame-gap monitor condition `len(self.bits) > 0 or self.state in
(ST_READ_DATA, ST_SLAVE_END)`. -/
def inFrame (s : DState) : Prop :=
  s.bits ≠ [] ∨ s.state = .READ_DATA ∨ s.state = .SLAVE_END

instance (s : DState) : Decidable (inFrame s) :=
  inferInstanceAs
    (Decidable (s.bits ≠ [] ∨ s.state = St.READ_DATA ∨ s.state = St.SLAVE_END))

/-- The frame-gap check run on each falling edge.  Python's
`if last_rise and in_frame and (fall - last_rise) > max_bit_gap` treats
`last_rise = None` and `last_rise = 0` both as falsy. -/
def gapCheck (u : ℚ) (s : DState) (lastRise : Option Int) (fall : Int) :
    DState × List Ann :=
  match lastRise with
  | none => (s, [])
  | some lr =>
      if lr ≠ 0 ∧ inFrame s ∧ ((fall - lr : Int) : ℚ) > u * 10 then
        (resync s, [⟨lr, fall, ANN_ERROR, ["Frame gap", "GAP"]⟩])
      else (s, [])

/-- One full iteration of the `while True` loop of `Decoder.decode`:
gap check on the falling edge, then classification and dispatch. -/
def processPulse (u : ℚ) (w : Nat) (s : DState) (lastRise : Option Int)
    (p : Int × Int) : DState × List Ann :=
  let g := gapCheck u s lastRise p.1
  let c := classifyStep u w g.1 p.1 p.2
  (c.1, g.2 ++ c.2)

/-- Running the decode loop over a list of (fall, rise) pulse pairs,
threading the state and `last_rise` (which is set to the rise sample of
every processed pulse). -/
def runPulses (u : ℚ) (w : Nat) (s : DState) (lastRise : Option Int) :
    List (Int × Int) → DState × List Ann
  | [] => (s, [])
  | p :: ps =>
      let r := processPulse u w s lastRise p
      let r2 := runPulses u w r.1 (some p.2) ps
      (r2.1, r.2 ++ r2.2)

/-- The `last_rise` value after processing a pulse list that started with
`last_rise = lr`. -/
def lastRiseAfter (lr : Option Int) : List (Int × Int) → Option Int
  | [] => lr
  | p :: ps => lastRiseAfter (some p.2) ps

/-- Plain-integer version of `lastRiseAfter` for a known starting rise. -/
def lastRiseOf (lr : Int) : List (Int × Int) → Int
  | [] => lr
  | p :: ps => lastRiseOf p.2 ps

/-- The top-level `Decoder.decode` entry: fails without a (truthy) sample
rate, otherwise computes the unit time and runs the loop from the fresh
state. -/
def decode (samplerate : Option ℚ) (bitrate addr_bytes : Nat)
    (ps : List (Int × Int)) : Except String (List Ann) :=
  match samplerate with
  | none => .error "Cannot decode without samplerate."
  | some sr =>
      if sr = 0 then .error "Cannot decode without samplerate."
      else
        .ok (runPulses (sr / ((bitrate : ℚ) * 5)) addr_bytes initState none ps).2

/-- States on the master-byte path of the dispatch (the fall-through of all
four `ST_READ_*`/`ST_SLAVE_END` branches). -/
def isMasterSt : St → Bool
  | .IDLE | .ADDR_0 | .ADDR_N | .RW_ID | .DATA => true
  | _ => false

/-- Measured low time `rise - fall` of a pulse, as a rational. -/
def lowT (p : Int × Int) : ℚ := ((p.2 - p.1 : Int) : ℚ)

/-- A pulse whose low time encodes bit `b` (bit 0 for `b = 0`, bit 1
otherwise). -/
def bitPulse (u : ℚ) (b : Nat) (p : Int × Int) : Prop :=
  match b with
  | 0 => validLow0 u (lowT p)
  | _ + 1 => validLow1 u (lowT p)

instance (u : ℚ) (b : Nat) (p : Int × Int) : Decidable (bitPulse u b p) :=
  match b with
  | 0 => inferInstanceAs (Decidable (validLow0 u (lowT p)))
  | _ + 1 => inferInstanceAs (Decidable (validLow1 u (lowT p)))

/-- A validly timed pulse (either window). -/
def validAnyP (u : ℚ) (p : Int × Int) : Prop :=
  validLow0 u (lowT p) ∨ validLow1 u (lowT p)

instance (u : ℚ) (p : Int × Int) : Decidable (validAnyP u p) :=
  inferInstanceAs (Decidable (_ ∨ _))

/-- The pulses `bps` encode the bit values `bs` in order (each bit binary,
each pulse in the matching valid window). -/
def pulsesMatch (u : ℚ) : List Nat → List (Int × Int) → Prop
  | [], [] => True
  | b :: bs, p :: ps => (b ≤ 1 ∧ bitPulse u b p) ∧ pulsesMatch u bs ps
  | _ :: _, [] => False
  | [], _ :: _ => False

instance pulsesMatchDec (u : ℚ) :
    (bs : List Nat) → (ps : List (Int × Int)) → Decidable (pulsesMatch u bs ps)
  | [], [] => .isTrue trivial
  | [], _ :: _ => .isFalse (fun h => h)
  | _ :: _, [] => .isFalse (fun h => h)
  | _ :: bs, _ :: ps =>
      have : Decidable (pulsesMatch u bs ps) := pulsesMatchDec u bs ps
      inferInstanceAs (Decidable (_ ∧ _))

/-- Every pulse in the list begins at most `10 u` after the previous rise,
starting from last rise `lr`. -/
def chainFrom (u : ℚ) (lr : Int) : List (Int × Int) → Prop
  | [] => True
  | p :: ps => ((p.1 - lr : Int) : ℚ) ≤ u * 10 ∧ chainFrom u p.2 ps

instance chainFromDec (u : ℚ) (lr : Int) :
    (ps : List (Int × Int)) → Decidable (chainFrom u lr ps)
  | [] => .isTrue trivial
  | p :: ps =>
      have : Decidable (chainFrom u p.2 ps) := chainFromDec u p.2 ps
      inferInstanceAs (Decidable (_ ∧ _))

/-- Gap bounds inside a pulse group: every pulse after the first begins at
most `10 u` after its predecessor's rise (the first pulse is unconstrained,
matching the gap monitor being off when not in-frame). -/
def innerChain (u : ℚ) : List (Int × Int) → Prop
  | [] => True
  | p :: ps => chainFrom u p.2 ps

instance (u : ℚ) (ps : List (Int × Int)) : Decidable (innerChain u ps) :=
  match ps with
  | [] => .isTrue trivial
  | p :: ps => inferInstanceAs (Decidable (chainFrom u p.2 ps))

/-- The bit tuple the assembler appends for bit `b` measured on pulse `p`. -/
def tupleOf (u : ℚ) (b : Nat) (p : Int × Int) : Nat × Int × Int :=
  (b, p.1, bitEnd u p.1)

/-- The bit tuples appended for bit list `bs` on pulses `bps`. -/
def tuplesOf (u : ℚ) (bs : List Nat) (bps : List (Int × Int)) :
    List (Nat × Int × Int) :=
  List.zipWith (tupleOf u) bs bps

/-- The bit annotation emitted for bit `b` on pulse `p` at row index `i`. -/
def bitAnnOf (u : ℚ) (i b : Nat) (p : Int × Int) : Ann :=
  ⟨p.1, bitEnd u p.1, i, [toString b]⟩

/-- The bit annotations of one 9-bit master frame: a CMD bit then data
bits. -/
def frameBitAnns (u : ℚ) (bs : List Nat) (bps : List (Int × Int)) : List Ann :=
  match bs, bps with
  | b :: bs, p :: ps => bitAnnOf u ANN_CMD_BIT b p :: List.zipWith (bitAnnOf u ANN_BIT) bs ps
  | _, _ => []

/-- Semantic (transaction-level) annotation indices: START, address,
direction/ID, master data, slave data, END, and error. -/
def isSemAnn (a : Ann) : Bool :=
  a.idx == ANN_START || a.idx == ANN_ADDR || a.idx == ANN_RW ||
    a.idx == ANN_DATA_M || a.idx == ANN_DATA_S || a.idx == ANN_END ||
    a.idx == ANN_ERROR

/-- Projection of an annotation list to the semantic events. -/
def semAnns (l : List Ann) : List Ann := l.filter isSemAnn

/-- Recognizer for the framing-error ("Frame gap") annotation. -/
def isGapAnn (a : Ann) : Bool :=
  a.idx == ANN_ERROR && a.labels.getD 1 "" == "GAP"

/-- A 9-bit master frame of the edge stream: bit pulses `bps` encoding bits
`bs`, then the end-unit pulse `ep`. -/
structure MFrame where
  bs : List Nat
  bps : List (Int × Int)
  ep : Int × Int

/-- The pulses of a master frame in stream order. -/
def MFrame.pulses (f : MFrame) : List (Int × Int) := f.bps ++ [f.ep]

/-- Well-formed master frame: 9 binary bits validly encoded, a validly
timed end pulse, and all in-frame gaps at most `10 u`. -/
def wfMFrame (u : ℚ) (f : MFrame) : Prop :=
  f.bs.length = 9 ∧ pulsesMatch u f.bs f.bps ∧ validAnyP u f.ep ∧
    innerChain u (f.bps ++ [f.ep])

/-- The command bit of a master frame. -/
def frameCmd (f : MFrame) : Nat := f.bs.getD 0 0

/-- The data byte value assembled from a master frame. -/
def frameVal (f : MFrame) : Nat := bitFold ((f.bs.drop 1).take 8)

/-- Start sample of a master frame's byte annotation span. -/
def frameSS (f : MFrame) : Int := (f.bps.getD 0 (0, 0)).1

/-- End sample of a master frame's byte annotation span. -/
def frameES (u : ℚ) (f : MFrame) : Int := bitEnd u (f.bps.getD 8 (0, 0)).1

/-- The byte-row annotation of a master frame. -/
def byteAnnOf (u : ℚ) (f : MFrame) : Ann :=
  ⟨frameSS f, frameES u f, ANN_BYTE, [pyHex 2 (frameVal f)]⟩

/-- Default master frame, used with `List.getD`. -/
def mfDefault : MFrame := ⟨[], [], (0, 0)⟩

/-- The START event of a well-formed START frame. -/
def startAnnOf (u : ℚ) (f : MFrame) : Ann :=
  ⟨frameSS f, frameES u f, ANN_START, ["START", "S"]⟩

/-- The END event of a well-formed END frame. -/
def endAnnOf (u : ℚ) (f : MFrame) : Ann :=
  ⟨frameSS f, frameES u f, ANN_END, ["END", "E"]⟩

/-- The master-data event of a data frame. -/
def dataMAnnOf (u : ℚ) (f : MFrame) : Ann :=
  ⟨frameSS f, frameES u f, ANN_DATA_M, [pyHex 2 (frameVal f)]⟩

/-- The direction/ID event of an RW/ID frame. -/
def rwAnnOf (u : ℚ) (f : MFrame) : Ann :=
  let v := frameVal f
  let ir : Bool := decide ((v &&& 0x80) ≠ 0)
  ⟨frameSS f, frameES u f, ANN_RW,
   [(if ir then "R" else "W") ++ " ID:" ++ toString (v &&& 0x7F),
    if ir then "R" else "W"]⟩

/-- The address event accumulated over address frames `f1 .. fw` with
big-endian value `v`. -/
def addrAnnOf (u : ℚ) (w : Nat) (f1 fw : MFrame) (v : Nat) : Ann :=
  ⟨frameSS f1, frameES u fw, ANN_ADDR,
   ["ADDR: " ++ pyHex (w * 2) v, pyHex (w * 2) v]⟩

/-- One slave-byte group of a read transaction: the trigger pulse `tp`
(one unit low), the 8 slave bit pulses `sbps` encoding `sbs`, and the
slave end-unit spacer pulse `sp`. -/
structure RGroup where
  tp : Int × Int
  sbs : List Nat
  sbps : List (Int × Int)
  sp : Int × Int

/-- The pulses of a read group in stream order. -/
def RGroup.pulses (g : RGroup) : List (Int × Int) := g.tp :: g.sbps ++ [g.sp]

/-- Well-formed read group. -/
def wfRGroup (u : ℚ) (g : RGroup) : Prop :=
  g.sbs.length = 8 ∧ bitPulse u 0 g.tp ∧ pulsesMatch u g.sbs g.sbps ∧
    validAnyP u g.sp ∧ innerChain u (g.tp :: g.sbps ++ [g.sp])

/-- The slave byte value of a read group. -/
def slaveVal (g : RGroup) : Nat := bitFold (g.sbs.take 8)

/-- Start sample of a read group's slave byte annotation. -/
def slaveSS (g : RGroup) : Int := (g.sbps.getD 0 (0, 0)).1

/-- End sample of a read group's slave byte annotation. -/
def slaveES (u : ℚ) (g : RGroup) : Int := bitEnd u (g.sbps.getD 7 (0, 0)).1

/-- The slave-data event of a read group. -/
def dataSAnnOf (u : ℚ) (g : RGroup) : Ann :=
  ⟨slaveSS g, slaveES u g, ANN_DATA_S, [pyHex 2 (slaveVal g)]⟩

/-- The terminating END byte of a read transaction: the continuation pulse
`cp` (bit 1, becoming the CMD bit), 8 further bit pulses `ebps` encoding
`ebs`, and the end-unit pulse `ep`. -/
structure ETail where
  cp : Int × Int
  ebs : List Nat
  ebps : List (Int × Int)
  ep : Int × Int

/-- The pulses of a read END tail in stream order. -/
def ETail.pulses (t : ETail) : List (Int × Int) := t.cp :: t.ebps ++ [t.ep]

/-- Well-formed read END tail whose byte value is 0xFF. -/
def wfETail (u : ℚ) (t : ETail) : Prop :=
  t.ebs.length = 8 ∧ bitPulse u 1 t.cp ∧ pulsesMatch u t.ebs t.ebps ∧
    bitFold t.ebs = 0xFF ∧ validAnyP u t.ep ∧
    innerChain u (t.cp :: t.ebps ++ [t.ep])

/-- The END event emitted at the close of a read transaction. -/
def endAnnOfTail (u : ℚ) (t : ETail) : Ann :=
  ⟨t.cp.1, bitEnd u (t.ebps.getD 7 (0, 0)).1, ANN_END, ["END", "E"]⟩

/-- Observational equivalence of decoder states: equality on every field
that can influence future annotations.  `is_read` is always written before
it is read, and `addr_start` is only read in state `ADDR_N` (and always
written in `ADDR_0` before `ADDR_N` can be entered), so these two fields
may differ. -/
def obsEq (s t : DState) : Prop :=
  s.bits = t.bits ∧ s.state = t.state ∧ s.addr = t.addr ∧
    s.addr_bytes_remaining = t.addr_bytes_remaining ∧ s.errors = t.errors ∧
    (s.state = .ADDR_N → s.addr_start = t.addr_start)

/-- Concrete transaction at unit time 5 (samplerate 50, bitrate 2), bit
slots 25 samples apart: START frame (cmd 1, value 0x5A). -/
def sfW : MFrame := ⟨[1, 0, 1, 0, 1, 1, 0, 1, 0], [(0, 20), (25, 30), (50, 70), (75, 80), (100, 120), (125, 145), (150, 155), (175, 195), (200, 205)], (225, 230)⟩

/-- First address frame (cmd 0, value 0x12). -/
def a1W : MFrame := ⟨[0, 0, 0, 0, 1, 0, 0, 1, 0], [(250, 255), (275, 280), (300, 305), (325, 330), (350, 370), (375, 380), (400, 405), (425, 445), (450, 455)], (475, 480)⟩

/-- Second address frame (cmd 0, value 0x34). -/
def a2W : MFrame := ⟨[0, 0, 0, 1, 1, 0, 1, 0, 0], [(500, 505), (525, 530), (550, 555), (575, 595), (600, 620), (625, 630), (650, 670), (675, 680), (700, 705)], (725, 730)⟩

/-- Write-direction RW/ID frame (cmd 0, value 0x05: bit 7 clear, ID 5). -/
def rfW : MFrame := ⟨[0, 0, 0, 0, 0, 0, 1, 0, 1], [(750, 755), (775, 780), (800, 805), (825, 830), (850, 855), (875, 880), (900, 920), (925, 930), (950, 970)], (975, 980)⟩

/-- Master data frame (cmd 0, value 0xAB). -/
def d1W : MFrame := ⟨[0, 1, 0, 1, 0, 1, 0, 1, 1], [(1000, 1005), (1025, 1045), (1050, 1055), (1075, 1095), (1100, 1105), (1125, 1145), (1150, 1155), (1175, 1195), (1200, 1220)], (1225, 1230)⟩

/-- END frame (cmd 1, value 0xFF). -/
def efW : MFrame := ⟨[1, 1, 1, 1, 1, 1, 1, 1, 1], [(1250, 1270), (1275, 1295), (1300, 1320), (1325, 1345), (1350, 1370), (1375, 1395), (1400, 1420), (1425, 1445), (1450, 1470)], (1475, 1480)⟩

/-- Read-direction RW/ID frame (cmd 0, value 0x85: bit 7 set, ID 5). -/
def rfR : MFrame := ⟨[0, 1, 0, 0, 0, 0, 1, 0, 1], [(750, 755), (775, 795), (800, 805), (825, 830), (850, 855), (875, 880), (900, 920), (925, 930), (950, 970)], (975, 980)⟩

/-- Read group: trigger pulse, slave byte 0x42, end-unit spacer pulse. -/
def g1R : RGroup := ⟨(1000, 1005), [0, 1, 0, 0, 0, 0, 1, 0], [(1025, 1030), (1050, 1070), (1075, 1080), (1100, 1105), (1125, 1130), (1150, 1155), (1175, 1195), (1200, 1205)], (1225, 1230)⟩

/-- Read END tail: continuation bit 1, eight 1-bits (0xFF), end pulse. -/
def tlR : ETail := ⟨(1250, 1270), [1, 1, 1, 1, 1, 1, 1, 1], [(1275, 1295), (1300, 1320), (1325, 1345), (1350, 1370), (1375, 1395), (1400, 1420), (1425, 1445), (1450, 1470)], (1475, 1480)⟩

/-- A master frame carrying byte value 0x56 (cmd 0); only the bit list
matters for value computations. -/
def mk56 : MFrame := ⟨[0, 0, 1, 0, 1, 0, 1, 1, 0], [], (0, 0)⟩

/-- A master frame carrying byte value 0xCD (cmd 0). -/
def mkCD : MFrame := ⟨[0, 1, 1, 0, 0, 1, 1, 0, 1], [], (0, 0)⟩

/-- A read-data state holding 7 accumulated slave bits (prefix of 0x42). -/
def rdState7 : DState :=
  { initState with
      state := .READ_DATA, is_read := true,
      bits := [(0, 0, 25), (1, 25, 50), (0, 50, 75), (0, 75, 100),
        (0, 100, 125), (0, 125, 150), (1, 150, 175)] }

/-- A master-data state (read context) holding the 9 bits of cmd 1 /
value 0xFF. -/
def dEndState : DState :=
  { initState with
      state := .DATA, is_read := true,
      bits := [(1, 0, 25), (1, 25, 50), (1, 50, 75), (1, 75, 100),
        (1, 100, 125), (1, 125, 150), (1, 150, 175), (1, 175, 200),
        (1, 200, 225)] }

/-- A master-data state (read context) holding the 9 bits of cmd 1 /
value 0x5A. -/
def dStartState : DState :=
  { initState with
      state := .DATA, is_read := true,
      bits := [(1, 0, 25), (0, 25, 50), (1, 50, 75), (0, 75, 100),
        (1, 100, 125), (1, 125, 150), (0, 150, 175), (1, 175, 200),
        (0, 200, 225)] }

/-- A master-data state (read context) holding the 9 bits of cmd 1 /
value 0x00. -/
def dBadState : DState :=
  { initState with
      state := .DATA, is_read := true,
      bits := [(1, 0, 25), (0, 25, 50), (0, 50, 75), (0, 75, 100),
        (0, 100, 125), (0, 125, 150), (0, 150, 175), (0, 175, 200),
        (0, 200, 225)] }

/-- An RW/ID-state decoder mid-transaction holding the 9 bits of a START
byte, with leftover address and error count from the aborted transaction. -/
def rwStartState : DState :=
  { initState with
      state := .RW_ID, addr := 0x12, errors := 2,
      bits := [(1, 300, 325), (0, 325, 350), (1, 350, 375), (0, 375, 400),
        (1, 400, 425), (1, 425, 450), (0, 450, 475), (1, 475, 500),
        (0, 500, 525)] }

/-- A decoder holding the same 9 START-byte bits as `dStartState` but with
arbitrarily different prior-transaction fields. -/
def junkStartState : DState :=
  { initState with
      state := .RW_ID, addr := 255, addr_start := 123, is_read := true,
      errors := 2,
      bits := [(1, 0, 25), (0, 25, 50), (1, 50, 75), (0, 75, 100),
        (1, 100, 125), (1, 125, 150), (0, 150, 175), (1, 175, 200),
        (0, 200, 225)] }

/-- A data-state decoder; differs from `obsB` only in `addr_start` and
`is_read`. -/
def obsA : DState :=
  { initState with state := .DATA, addr_start := 7, is_read := true }

/-- Observational partner of `obsA`. -/
def obsB : DState := { initState with state := .DATA, addr_start := 9 }

lemma not_valid_both (u lt : ℚ) (hu : 0 < u) (h0 : validLow0 u lt)
    (h1 : validLow1 u lt) : False := by
  rcases h0 with ⟨-, h02⟩
  rcases h1 with ⟨h11, -⟩
  nlinarith

lemma classifyLow_of_valid0 (u lt : ℚ) (hu : 0 < u) (h : validLow0 u lt) :
    classifyLow u lt = some 0 := by
  unfold classifyLow
  rw [if_pos (Or.inl h)]
  have hn : ¬ lt > u * 2.5 := by
    rcases h with ⟨-, h2⟩
    nlinarith
  rw [if_neg hn]

lemma classifyLow_of_valid1 (u lt : ℚ) (hu : 0 < u) (h : validLow1 u lt) :
    classifyLow u lt = some 1 := by
  unfold classifyLow
  rw [if_pos (Or.inr h)]
  have hp : lt > u * 2.5 := by
    rcases h with ⟨h1, -⟩
    nlinarith
  rw [if_pos hp]

lemma classifyLow_of_invalid (u lt : ℚ) (h0 : ¬ validLow0 u lt)
    (h1 : ¬ validLow1 u lt) : classifyLow u lt = none := by
  unfold classifyLow
  rw [if_neg]
  rintro (h | h)
  · exact h0 h
  · exact h1 h

lemma classifyLow_of_bitPulse (u : ℚ) (b : Nat) (p : Int × Int) (hu : 0 < u)
    (hb : b ≤ 1) (h : bitPulse u b p) : classifyLow u (lowT p) = some b := by
  interval_cases b
  · exact classifyLow_of_valid0 u (lowT p) hu h
  · exact classifyLow_of_valid1 u (lowT p) hu h

lemma classifyLow_some_iff0 (u lt : ℚ) (hu : 0 < u) :
    classifyLow u lt = some 0 ↔ validLow0 u lt := by
  constructor
  · intro h
    unfold classifyLow at h
    by_cases hv : validLow0 u lt ∨ validLow1 u lt
    · rcases hv with hv | hv
      · exact hv
      · rw [if_pos (Or.inr hv)] at h
        have hp : lt > u * 2.5 := by
          rcases hv with ⟨h1, -⟩
          nlinarith
        rw [if_pos hp] at h
        exact absurd h (by simp)
    · rw [if_neg hv] at h
      exact absurd h (by simp)
  · exact classifyLow_of_valid0 u lt hu

lemma classifyLow_some_iff1 (u lt : ℚ) (hu : 0 < u) :
    classifyLow u lt = some 1 ↔ validLow1 u lt := by
  constructor
  · intro h
    unfold classifyLow at h
    by_cases hv : validLow0 u lt ∨ validLow1 u lt
    · rcases hv with hv | hv
      · rw [if_pos (Or.inl hv)] at h
        have hn : ¬ lt > u * 2.5 := by
          rcases hv with ⟨-, h2⟩
          nlinarith
        rw [if_neg hn] at h
        exact absurd h (by simp)
      · exact hv
    · rw [if_neg hv] at h
      exact absurd h (by simp)
  · exact classifyLow_of_valid1 u lt hu

lemma classifyLow_none_iff (u lt : ℚ) :
    classifyLow u lt = none ↔ ¬ validLow0 u lt ∧ ¬ validLow1 u lt := by
  constructor
  · intro h
    unfold classifyLow at h
    by_cases hv : validLow0 u lt ∨ validLow1 u lt
    · rw [if_pos hv] at h
      exact absurd h (by simp)
    · exact ⟨fun h0 => hv (Or.inl h0), fun h1 => hv (Or.inr h1)⟩
  · intro ⟨h0, h1⟩
    exact classifyLow_of_invalid u lt h0 h1

lemma classifyStep_invalid (u : ℚ) (w : Nat) (s : DState) (fall rise : Int)
    (h : classifyLow u ((rise - fall : Int) : ℚ) = none) :
    classifyStep u w s fall rise =
      (if s.errors + 1 ≥ 3 then resync { s with errors := s.errors + 1 }
       else { s with errors := s.errors + 1 },
       [⟨fall, rise, ANN_ERROR, ["Bad timing", "TIME"]⟩]) := by
  simp only [classifyStep, h]

lemma classifyStep_readTrig (u : ℚ) (w : Nat) (s : DState) (fall rise : Int)
    (b : Nat) (hst : s.state = .READ_TRIG)
    (h : classifyLow u ((rise - fall : Int) : ℚ) = some b) :
    classifyStep u w s fall rise =
      ({ s with errors := 0, state := .READ_DATA },
       [⟨fall, rise, ANN_TRIG, ["Trigger", "T", ">"]⟩]) := by
  simp only [classifyStep, h, hst, reduceIte]

lemma classifyStep_readData_append (u : ℚ) (w : Nat) (s : DState)
    (fall rise : Int) (b : Nat) (hst : s.state = .READ_DATA)
    (hlen : s.bits.length + 1 ≠ 8)
    (h : classifyLow u ((rise - fall : Int) : ℚ) = some b) :
    classifyStep u w s fall rise =
      ({ s with errors := 0, bits := s.bits ++ [(b, fall, bitEnd u fall)] },
       [⟨fall, bitEnd u fall, ANN_BIT, [toString b]⟩]) := by
  simp only [classifyStep, h, hst, reduceIte, List.length_append,
    List.length_singleton, hlen, if_false]
  simp [hlen]

lemma classifyStep_readData_byte (u : ℚ) (w : Nat) (s : DState)
    (fall rise : Int) (b : Nat) (hst : s.state = .READ_DATA)
    (hlen : s.bits.length = 7)
    (h : classifyLow u ((rise - fall : Int) : ℚ) = some b) :
    classifyStep u w s fall rise =
      ({ s with errors := 0, bits := [], state := .SLAVE_END },
       [⟨fall, bitEnd u fall, ANN_BIT, [toString b]⟩,
        ⟨((s.bits ++ [(b, fall, bitEnd u fall)]).getD 0 d0).2.1,
         ((s.bits ++ [(b, fall, bitEnd u fall)]).getD 7 d0).2.2, ANN_BYTE,
         [pyHex 2 (byteFold ((s.bits ++ [(b, fall, bitEnd u fall)]).take 8))]⟩,
        ⟨((s.bits ++ [(b, fall, bitEnd u fall)]).getD 0 d0).2.1,
         ((s.bits ++ [(b, fall, bitEnd u fall)]).getD 7 d0).2.2, ANN_DATA_S,
         [pyHex 2 (byteFold ((s.bits ++ [(b, fall, bitEnd u fall)]).take 8))]⟩]) := by
  have h8 : (s.bits ++ [(b, fall, bitEnd u fall)]).length = 8 := by
    simp [hlen]
  simp only [classifyStep, h, hst, reduceIte, decode_slave_byte, h8]
  simp [h8]

lemma classifyStep_slaveEnd (u : ℚ) (w : Nat) (s : DState) (fall rise : Int)
    (b : Nat) (hst : s.state = .SLAVE_END)
    (h : classifyLow u ((rise - fall : Int) : ℚ) = some b) :
    classifyStep u w s fall rise =
      ({ s with errors := 0, state := .READ_TRIG_OR_END }, []) := by
  simp only [classifyStep, h, hst]
  rfl

lemma classifyStep_trigOrEnd1 (u : ℚ) (w : Nat) (s : DState) (fall rise : Int)
    (hst : s.state = .READ_TRIG_OR_END)
    (h : classifyLow u ((rise - fall : Int) : ℚ) = some 1) :
    classifyStep u w s fall rise =
      ({ s with
          errors := 0, bits := s.bits ++ [(1, fall, bitEnd u fall)],
          state := .DATA },
       [⟨fall, bitEnd u fall, ANN_CMD_BIT, [toString 1]⟩]) := by
  simp only [classifyStep, h, hst]
  rfl

lemma classifyStep_trigOrEnd0 (u : ℚ) (w : Nat) (s : DState) (fall rise : Int)
    (hst : s.state = .READ_TRIG_OR_END)
    (h : classifyLow u ((rise - fall : Int) : ℚ) = some 0) :
    classifyStep u w s fall rise =
      ({ s with errors := 0, state := .READ_DATA },
       [⟨fall, rise, ANN_TRIG, ["Trigger", "T", ">"]⟩]) := by
  simp only [classifyStep, h, hst]
  rfl

lemma isMasterSt_iff (st : St) :
    isMasterSt st = true ↔
      st ≠ .READ_TRIG ∧ st ≠ .READ_DATA ∧ st ≠ .SLAVE_END ∧
        st ≠ .READ_TRIG_OR_END := by
  cases st <;> simp [isMasterSt]

lemma classifyStep_master_append (u : ℚ) (w : Nat) (s : DState)
    (fall rise : Int) (b : Nat) (hst : isMasterSt s.state = true)
    (hlen : s.bits.length ≠ 9)
    (h : classifyLow u ((rise - fall : Int) : ℚ) = some b) :
    classifyStep u w s fall rise =
      ({ s with errors := 0, bits := s.bits ++ [(b, fall, bitEnd u fall)] },
       [⟨fall, bitEnd u fall,
         if s.bits.length = 0 then ANN_CMD_BIT else ANN_BIT, [toString b]⟩]) := by
  obtain ⟨h1, h2, h3, h4⟩ := (isMasterSt_iff s.state).1 hst
  simp only [classifyStep, h, h1, h2, h3, h4, reduceIte, hlen, if_false]

lemma classifyStep_master_decode (u : ℚ) (w : Nat) (s : DState)
    (fall rise : Int) (b : Nat) (hst : isMasterSt s.state = true)
    (hlen : s.bits.length = 9)
    (h : classifyLow u ((rise - fall : Int) : ℚ) = some b) :
    classifyStep u w s fall rise =
      ((decode_byte w { s with errors := 0 }).1,
       (decode_byte w { s with errors := 0 }).2.1) := by
  obtain ⟨h1, h2, h3, h4⟩ := (isMasterSt_iff s.state).1 hst
  simp only [classifyStep, h, h1, h2, h3, h4, reduceIte, hlen, if_true]

lemma gapCheck_noneLR (u : ℚ) (s : DState) (fall : Int) :
    gapCheck u s none fall = (s, []) := rfl

lemma gapCheck_noFire (u : ℚ) (s : DState) (lr fall : Int)
    (h : ¬ (lr ≠ 0 ∧ inFrame s ∧ ((fall - lr : Int) : ℚ) > u * 10)) :
    gapCheck u s (some lr) fall = (s, []) := by
  simp only [gapCheck, if_neg h]

lemma gapCheck_fire (u : ℚ) (s : DState) (lr fall : Int) (h0 : lr ≠ 0)
    (hin : inFrame s) (hg : ((fall - lr : Int) : ℚ) > u * 10) :
    gapCheck u s (some lr) fall =
      (resync s, [⟨lr, fall, ANN_ERROR, ["Frame gap", "GAP"]⟩]) := by
  simp only [gapCheck, if_pos (And.intro h0 (And.intro hin hg))]

lemma processPulse_of_gapCheck (u : ℚ) (w : Nat) (s : DState)
    (lastRise : Option Int) (p : Int × Int)
    (h : gapCheck u s lastRise p.1 = (s, [])) :
    processPulse u w s lastRise p = classifyStep u w s p.1 p.2 := by
  simp only [processPulse, h, List.nil_append]

lemma runPulses_cons (u : ℚ) (w : Nat) (s : DState) (lr : Option Int)
    (p : Int × Int) (ps : List (Int × Int)) :
    runPulses u w s lr (p :: ps) =
      ((runPulses u w (processPulse u w s lr p).1 (some p.2) ps).1,
       (processPulse u w s lr p).2 ++
         (runPulses u w (processPulse u w s lr p).1 (some p.2) ps).2) := rfl

lemma runPulses_append (u : ℚ) (w : Nat) :
    ∀ (ps qs : List (Int × Int)) (s : DState) (lr : Option Int),
      runPulses u w s lr (ps ++ qs) =
        ((runPulses u w (runPulses u w s lr ps).1 (lastRiseAfter lr ps) qs).1,
         (runPulses u w s lr ps).2 ++
           (runPulses u w (runPulses u w s lr ps).1 (lastRiseAfter lr ps) qs).2)
  | [], qs, s, lr => by simp [runPulses, lastRiseAfter]
  | p :: ps, qs, s, lr => by
      simp only [List.cons_append, runPulses_cons, lastRiseAfter]
      rw [runPulses_append u w ps qs]
      simp [List.append_assoc]

lemma countP_gap_slave (s : DState) :
    (decode_slave_byte s).2.1.countP isGapAnn = 0 := by
  simp only [decode_slave_byte]
  split_ifs <;> rfl

lemma countP_gap_byte (w : Nat) (s : DState) :
    (decode_byte w s).2.1.countP isGapAnn = 0 := by
  simp only [decode_byte]
  split_ifs <;> rfl

lemma countP_gap_classify (u : ℚ) (w : Nat) (s : DState) (fall rise : Int) :
    (classifyStep u w s fall rise).2.countP isGapAnn = 0 := by
  cases hcl : classifyLow u ((rise - fall : Int) : ℚ) with
  | none =>
      simp only [classifyStep, hcl]
      rfl
  | some b =>
      simp only [classifyStep, hcl]
      split_ifs <;>
        simp [List.countP_cons, countP_gap_slave, countP_gap_byte, isGapAnn,
          ANN_BIT, ANN_CMD_BIT, ANN_ERROR, List.countP_nil]

lemma decode_slave_errors (s : DState) (h : s.errors = 0) :
    (decode_slave_byte s).1.errors = 0 := by
  simp only [decode_slave_byte]
  split_ifs <;> simp [h]

lemma decode_byte_errors (w : Nat) (s : DState) (h : s.errors = 0) :
    (decode_byte w s).1.errors = 0 := by
  simp only [decode_byte]
  split_ifs <;> simp [h]

lemma classify_errors_zero (u : ℚ) (w : Nat) (s : DState) (fall rise : Int)
    (b : Nat) (h : classifyLow u ((rise - fall : Int) : ℚ) = some b) :
    (classifyStep u w s fall rise).1.errors = 0 := by
  simp only [classifyStep, h]
  split_ifs <;>
    simp [decode_slave_errors, decode_byte_errors]

lemma decode_byte_bits_nil (w : Nat) (s : DState) (h : s.bits.length = 9) :
    (decode_byte w s).1.bits = [] := by
  simp only [decode_byte]
  split_ifs with h1 <;> first | omega | rfl

lemma countP_bit_byte (w : Nat) (s : DState) :
    (decode_byte w s).2.1.countP
      (fun a => a.idx == ANN_BIT || a.idx == ANN_CMD_BIT) = 0 := by
  simp only [decode_byte]
  split_ifs <;> rfl

lemma update_errors_self (s : DState) (h : s.errors = 0) :
    ({ s with errors := 0 } : DState) = s := by
  cases s
  simp_all

lemma pulsesMatch_length (u : ℚ) :
    ∀ (bs : List Nat) (bps : List (Int × Int)),
      pulsesMatch u bs bps → bs.length = bps.length
  | [], [], _ => rfl
  | [], _ :: _, h => h.elim
  | _ :: _, [], h => h.elim
  | _ :: bs, _ :: ps, h => by
      simpa using pulsesMatch_length u bs ps h.2

lemma lastRiseAfter_some (lr : Int) :
    ∀ ps : List (Int × Int), lastRiseAfter (some lr) ps = some (lastRiseOf lr ps)
  | [] => rfl
  | p :: ps => lastRiseAfter_some p.2 ps

lemma chainFrom_append (u : ℚ) :
    ∀ (xs ys : List (Int × Int)) (lr : Int),
      chainFrom u lr (xs ++ ys) ↔
        chainFrom u lr xs ∧ chainFrom u (lastRiseOf lr xs) ys
  | [], ys, lr => by simp [chainFrom, lastRiseOf]
  | x :: xs, ys, lr => by
      simp only [List.cons_append, chainFrom, lastRiseOf, List.append_eq]
      rw [chainFrom_append u xs ys x.2, and_assoc]

lemma foldl_tuplesOf (u : ℚ) :
    ∀ (bs : List Nat) (bps : List (Int × Int)) (a : Nat),
      bs.length = bps.length →
      List.foldl (fun x t => (x <<< 1) ||| t.1) a (tuplesOf u bs bps) =
        List.foldl (fun x b => (x <<< 1) ||| b) a bs
  | [], [], a, _ => rfl
  | [], _ :: _, a, h => by simp at h
  | _ :: _, [], a, h => by simp at h
  | b :: bs, p :: ps, a, h => by
      simp only [tuplesOf, List.zipWith_cons_cons, List.foldl_cons, tupleOf]
      exact foldl_tuplesOf u bs ps _ (by simpa using h)

lemma byteFold_tuplesOf (u : ℚ) (bs : List Nat) (bps : List (Int × Int))
    (h : bs.length = bps.length) :
    byteFold (tuplesOf u bs bps) = bitFold bs :=
  foldl_tuplesOf u bs bps 0 h

lemma tuplesOf_getD (u : ℚ) :
    ∀ (bs : List Nat) (bps : List (Int × Int)) (i : Nat),
      i < bs.length → bs.length = bps.length →
      (tuplesOf u bs bps).getD i d0 =
        (bs.getD i 0, (bps.getD i (0, 0)).1, bitEnd u (bps.getD i (0, 0)).1)
  | [], _, i, hi, _ => by simp at hi
  | _ :: _, [], i, hi, h => by simp at h
  | b :: bs, p :: ps, 0, hi, h => rfl
  | b :: bs, p :: ps, i + 1, hi, h => by
      simp only [tuplesOf, List.zipWith_cons_cons, List.getD_cons_succ]
      exact tuplesOf_getD u bs ps i (by simpa using hi) (by simpa using h)

lemma tuplesOf_length (u : ℚ) (bs : List Nat) (bps : List (Int × Int)) :
    (tuplesOf u bs bps).length = min bs.length bps.length :=
  List.length_zipWith (tupleOf u) bs bps

lemma not_inFrame_of (s : DState) (hb : s.bits = [])
    (h2 : s.state ≠ .READ_DATA) (h3 : s.state ≠ .SLAVE_END) : ¬ inFrame s := by
  rintro (h | h | h)
  · exact h hb
  · exact h2 h
  · exact h3 h

lemma not_inFrame_master (s : DState) (hb : s.bits = [])
    (hst : isMasterSt s.state = true) : ¬ inFrame s := by
  obtain ⟨-, h2, h3, -⟩ := (isMasterSt_iff s.state).1 hst
  exact not_inFrame_of s hb h2 h3

lemma classifyLow_of_validAny (u : ℚ) (p : Int × Int)
    (hv : validLow0 u (lowT p) ∨ validLow1 u (lowT p)) :
    classifyLow u (lowT p) = some (if lowT p > u * 2.5 then 1 else 0) := by
  unfold classifyLow
  rw [if_pos hv]

lemma decode_byte_START (w : Nat) (s : DState) (hlen : s.bits.length = 9)
    (h1 : (s.bits.getD 0 d0).1 = 1)
    (h2 : byteFold ((s.bits.drop 1).take 8) = 0x5A) :
    decode_byte w s =
      ({ s with
          state := .ADDR_0, addr_bytes_remaining := (w : Int), addr := 0,
          bits := [], errors := 0 },
       (if s.state ≠ St.IDLE then
          [⟨(s.bits.getD 0 d0).2.1, (s.bits.getD 8 d0).2.2, ANN_ERROR,
            ["Unexpected START", "RESYNC"]⟩]
        else []) ++
         [⟨(s.bits.getD 0 d0).2.1, (s.bits.getD 8 d0).2.2, ANN_BYTE,
           [pyHex 2 0x5A]⟩,
          ⟨(s.bits.getD 0 d0).2.1, (s.bits.getD 8 d0).2.2, ANN_START,
           ["START", "S"]⟩],
       true) := by
  simp only [decode_byte]
  rw [if_neg (by omega), if_pos (And.intro h1 h2), h2]

lemma decode_byte_END (w : Nat) (s : DState) (hlen : s.bits.length = 9)
    (h1 : (s.bits.getD 0 d0).1 = 1)
    (h2 : byteFold ((s.bits.drop 1).take 8) = 0xFF) :
    decode_byte w s =
      ({ s with state := .IDLE, is_read := false, bits := [] },
       [⟨(s.bits.getD 0 d0).2.1, (s.bits.getD 8 d0).2.2, ANN_BYTE,
         [pyHex 2 0xFF]⟩,
        ⟨(s.bits.getD 0 d0).2.1, (s.bits.getD 8 d0).2.2, ANN_END,
         ["END", "E"]⟩],
       true) := by
  simp only [decode_byte]
  rw [if_neg (by omega), if_neg (by rintro ⟨-, h90⟩; rw [h2] at h90; norm_num at h90),
    if_pos h1, if_pos h2, h2]

lemma decode_byte_invalid (w : Nat) (s : DState) (hlen : s.bits.length = 9)
    (h1 : (s.bits.getD 0 d0).1 = 1)
    (h2 : byteFold ((s.bits.drop 1).take 8) ≠ 0x5A)
    (h3 : byteFold ((s.bits.drop 1).take 8) ≠ 0xFF) :
    decode_byte w s =
      ({ s with state := .IDLE, is_read := false, bits := [] },
       [⟨(s.bits.getD 0 d0).2.1, (s.bits.getD 8 d0).2.2, ANN_BYTE,
         [pyHex 2 (byteFold ((s.bits.drop 1).take 8))]⟩,
        ⟨(s.bits.getD 0 d0).2.1, (s.bits.getD 8 d0).2.2, ANN_ERROR,
         ["Invalid CMD: " ++ pyHex 2 (byteFold ((s.bits.drop 1).take 8)),
          "BAD CMD"]⟩],
       true) := by
  simp only [decode_byte]
  rw [if_neg (by omega), if_neg (by rintro ⟨-, h90⟩; exact h2 h90),
    if_pos h1, if_neg h3]

lemma decode_byte_addr0 (w : Nat) (s : DState) (hlen : s.bits.length = 9)
    (hc : (s.bits.getD 0 d0).1 ≠ 1) (hst : s.state = .ADDR_0)
    (hrem : 1 < s.addr_bytes_remaining) :
    decode_byte w s =
      ({ s with
          addr := byteFold ((s.bits.drop 1).take 8),
          addr_start := (s.bits.getD 0 d0).2.1,
          addr_bytes_remaining := s.addr_bytes_remaining - 1,
          state := .ADDR_N, bits := [] },
       [⟨(s.bits.getD 0 d0).2.1, (s.bits.getD 8 d0).2.2, ANN_BYTE,
         [pyHex 2 (byteFold ((s.bits.drop 1).take 8))]⟩],
       true) := by
  simp only [decode_byte]
  rw [if_neg (by omega), if_neg (by rintro ⟨hh, -⟩; exact hc hh), if_neg hc,
    if_neg (by simp [hst]), if_pos hst, if_pos (by omega)]

lemma decode_byte_addrN_mid (w : Nat) (s : DState) (hlen : s.bits.length = 9)
    (hc : (s.bits.getD 0 d0).1 ≠ 1) (hst : s.state = .ADDR_N)
    (hrem : s.addr_bytes_remaining ≠ 1) :
    decode_byte w s =
      ({ s with
          addr := (s.addr <<< 8) ||| byteFold ((s.bits.drop 1).take 8),
          addr_bytes_remaining := s.addr_bytes_remaining - 1, bits := [] },
       [⟨(s.bits.getD 0 d0).2.1, (s.bits.getD 8 d0).2.2, ANN_BYTE,
         [pyHex 2 (byteFold ((s.bits.drop 1).take 8))]⟩],
       true) := by
  simp only [decode_byte]
  rw [if_neg (by omega), if_neg (by rintro ⟨hh, -⟩; exact hc hh), if_neg hc,
    if_neg (by simp [hst]), if_neg (by simp [hst]), if_pos hst,
    if_neg (by omega)]

lemma decode_byte_addrN_last (w : Nat) (s : DState) (hlen : s.bits.length = 9)
    (hc : (s.bits.getD 0 d0).1 ≠ 1) (hst : s.state = .ADDR_N)
    (hrem : s.addr_bytes_remaining = 1) :
    decode_byte w s =
      ({ s with
          addr := (s.addr <<< 8) ||| byteFold ((s.bits.drop 1).take 8),
          addr_bytes_remaining := s.addr_bytes_remaining - 1,
          state := .RW_ID, bits := [] },
       [⟨(s.bits.getD 0 d0).2.1, (s.bits.getD 8 d0).2.2, ANN_BYTE,
         [pyHex 2 (byteFold ((s.bits.drop 1).take 8))]⟩,
        ⟨s.addr_start, (s.bits.getD 8 d0).2.2, ANN_ADDR,
         ["ADDR: " ++
            pyHex (w * 2) ((s.addr <<< 8) ||| byteFold ((s.bits.drop 1).take 8)),
          pyHex (w * 2) ((s.addr <<< 8) ||| byteFold ((s.bits.drop 1).take 8))]⟩],
       true) := by
  simp only [decode_byte]
  rw [if_neg (by omega), if_neg (by rintro ⟨hh, -⟩; exact hc hh), if_neg hc,
    if_neg (by simp [hst]), if_neg (by simp [hst]), if_pos hst,
    if_pos (by omega)]

lemma decode_byte_rwid (w : Nat) (s : DState) (hlen : s.bits.length = 9)
    (hc : (s.bits.getD 0 d0).1 ≠ 1) (hst : s.state = .RW_ID) :
    decode_byte w s =
      ({ s with
          is_read := decide ((byteFold ((s.bits.drop 1).take 8) &&& 0x80) ≠ 0),
          state :=
            if decide ((byteFold ((s.bits.drop 1).take 8) &&& 0x80) ≠ 0) then
              .READ_TRIG
            else .DATA,
          bits := [] },
       [⟨(s.bits.getD 0 d0).2.1, (s.bits.getD 8 d0).2.2, ANN_BYTE,
         [pyHex 2 (byteFold ((s.bits.drop 1).take 8))]⟩,
        ⟨(s.bits.getD 0 d0).2.1, (s.bits.getD 8 d0).2.2, ANN_RW,
         [(if decide ((byteFold ((s.bits.drop 1).take 8) &&& 0x80) ≠ 0) then "R"
           else "W") ++ " ID:" ++
            toString (byteFold ((s.bits.drop 1).take 8) &&& 0x7F),
          if decide ((byteFold ((s.bits.drop 1).take 8) &&& 0x80) ≠ 0) then "R"
          else "W"]⟩],
       true) := by
  simp only [decode_byte]
  rw [if_neg (by omega), if_neg (by rintro ⟨hh, -⟩; exact hc hh), if_neg hc,
    if_neg (by simp [hst]), if_neg (by simp [hst]), if_neg (by simp [hst]),
    if_pos hst]

lemma decode_byte_data (w : Nat) (s : DState) (hlen : s.bits.length = 9)
    (hc : (s.bits.getD 0 d0).1 ≠ 1) (h4 : s.state ≠ .IDLE)
    (h5 : s.state ≠ .ADDR_0) (h6 : s.state ≠ .ADDR_N) (h7 : s.state ≠ .RW_ID) :
    decode_byte w s =
      ({ s with bits := [] },
       [⟨(s.bits.getD 0 d0).2.1, (s.bits.getD 8 d0).2.2, ANN_BYTE,
         [pyHex 2 (byteFold ((s.bits.drop 1).take 8))]⟩,
        ⟨(s.bits.getD 0 d0).2.1, (s.bits.getD 8 d0).2.2, ANN_DATA_M,
         [pyHex 2 (byteFold ((s.bits.drop 1).take 8))]⟩],
       true) := by
  simp only [decode_byte]
  rw [if_neg (by omega), if_neg (by rintro ⟨hh, -⟩; exact hc hh), if_neg hc,
    if_neg h4, if_neg h5, if_neg h6, if_neg h7]

lemma decode_slave_obsEq (s t : DState) (h : obsEq s t) :
    (decode_slave_byte s).2 = (decode_slave_byte t).2 ∧
      obsEq (decode_slave_byte s).1 (decode_slave_byte t).1 := by
  obtain ⟨hb, hst, ha, hr, he, has⟩ := h
  simp only [decode_slave_byte, hb]
  split_ifs with h1
  · exact ⟨rfl, hb, hst, ha, hr, he, has⟩
  · exact ⟨rfl, rfl, hst, ha, hr, he, fun hn => has hn⟩

lemma decode_byte_missing (w : Nat) (s : DState) (hlen : s.bits.length = 9)
    (hc : (s.bits.getD 0 d0).1 ≠ 1) (hst : s.state = .IDLE) :
    decode_byte w s =
      ({ s with bits := [] },
       [⟨(s.bits.getD 0 d0).2.1, (s.bits.getD 8 d0).2.2, ANN_BYTE,
         [pyHex 2 (byteFold ((s.bits.drop 1).take 8))]⟩,
        ⟨(s.bits.getD 0 d0).2.1, (s.bits.getD 8 d0).2.2, ANN_ERROR,
         ["Missing START", "NO START"]⟩],
       true) := by
  simp only [decode_byte]
  rw [if_neg (by omega), if_neg (by rintro ⟨hh, -⟩; exact hc hh), if_neg hc,
    if_pos hst]

lemma decode_byte_addr0_last (w : Nat) (s : DState) (hlen : s.bits.length = 9)
    (hc : (s.bits.getD 0 d0).1 ≠ 1) (hst : s.state = .ADDR_0)
    (hrem : ¬ 1 < s.addr_bytes_remaining) :
    decode_byte w s =
      ({ s with
          addr := byteFold ((s.bits.drop 1).take 8),
          addr_start := (s.bits.getD 0 d0).2.1,
          addr_bytes_remaining := s.addr_bytes_remaining - 1,
          state := .RW_ID, bits := [] },
       [⟨(s.bits.getD 0 d0).2.1, (s.bits.getD 8 d0).2.2, ANN_BYTE,
         [pyHex 2 (byteFold ((s.bits.drop 1).take 8))]⟩,
        ⟨(s.bits.getD 0 d0).2.1, (s.bits.getD 8 d0).2.2, ANN_ADDR,
         ["ADDR: " ++ pyHex 2 (byteFold ((s.bits.drop 1).take 8)),
          pyHex 2 (byteFold ((s.bits.drop 1).take 8))]⟩],
       true) := by
  simp only [decode_byte]
  rw [if_neg (by omega), if_neg (by rintro ⟨hh, -⟩; exact hc hh), if_neg hc,
    if_neg (by simp [hst]), if_pos hst, if_neg (by omega)]

lemma decode_byte_obsEq (w : Nat) (s t : DState) (hlen : s.bits.length = 9)
    (h : obsEq s t) :
    (decode_byte w s).2 = (decode_byte w t).2 ∧
      obsEq (decode_byte w s).1 (decode_byte w t).1 := by
  obtain ⟨hb, hst, ha, hr, he, has⟩ := h
  cases s with
  | mk sb sst sa sas sr sir se =>
  cases t with
  | mk tb tst ta tas tr tir te =>
  have hb2 : sb = tb := hb
  have hst2 : sst = tst := hst
  have ha2 : sa = ta := ha
  have hr2 : sr = tr := hr
  have he2 : se = te := he
  subst hb2
  subst hst2
  subst ha2
  subst hr2
  subst he2
  have has2 : sst = .ADDR_N → sas = tas := has
  have hlen2 : sb.length = 9 := hlen
  by_cases hc : (sb.getD 0 d0).1 = 1
  · by_cases h5 : byteFold ((sb.drop 1).take 8) = 0x5A
    · rw [decode_byte_START w (DState.mk sb sst sa sas sr sir se) hlen hc h5,
        decode_byte_START w (DState.mk sb sst sa tas sr tir se) hlen hc h5]
      exact ⟨rfl, rfl, rfl, rfl, rfl, rfl, fun hn => nomatch hn⟩
    · by_cases hF : byteFold ((sb.drop 1).take 8) = 0xFF
      · rw [decode_byte_END w (DState.mk sb sst sa sas sr sir se) hlen hc hF,
          decode_byte_END w (DState.mk sb sst sa tas sr tir se) hlen hc hF]
        exact ⟨rfl, rfl, rfl, rfl, rfl, rfl, fun hn => nomatch hn⟩
      · rw [decode_byte_invalid w (DState.mk sb sst sa sas sr sir se) hlen hc
            h5 hF,
          decode_byte_invalid w (DState.mk sb sst sa tas sr tir se) hlen hc
            h5 hF]
        exact ⟨rfl, rfl, rfl, rfl, rfl, rfl, fun hn => nomatch hn⟩
  · by_cases hI : sst = .IDLE
    · rw [decode_byte_missing w (DState.mk sb sst sa sas sr sir se) hlen hc hI,
        decode_byte_missing w (DState.mk sb sst sa tas sr tir se) hlen hc hI]
      exact ⟨rfl, rfl, rfl, rfl, rfl, rfl, fun hn => has2 hn⟩
    · by_cases hA0 : sst = .ADDR_0
      · by_cases hrem : 1 < sr
        · rw [decode_byte_addr0 w (DState.mk sb sst sa sas sr sir se) hlen hc
              hA0 hrem,
            decode_byte_addr0 w (DState.mk sb sst sa tas sr tir se) hlen hc
              hA0 hrem]
          exact ⟨rfl, rfl, rfl, rfl, rfl, rfl, fun hn => rfl⟩
        · rw [decode_byte_addr0_last w (DState.mk sb sst sa sas sr sir se)
              hlen hc hA0 hrem,
            decode_byte_addr0_last w (DState.mk sb sst sa tas sr tir se)
              hlen hc hA0 hrem]
          exact ⟨rfl, rfl, rfl, rfl, rfl, rfl, fun hn => nomatch hn⟩
      · by_cases hAN : sst = .ADDR_N
        · have hsa : sas = tas := has2 hAN
          subst hsa
          by_cases hrem : sr = 1
          · rw [decode_byte_addrN_last w (DState.mk sb sst sa sas sr sir se)
                hlen hc hAN hrem,
              decode_byte_addrN_last w (DState.mk sb sst sa sas sr tir se)
                hlen hc hAN hrem]
            exact ⟨rfl, rfl, rfl, rfl, rfl, rfl, fun hn => nomatch hn⟩
          · rw [decode_byte_addrN_mid w (DState.mk sb sst sa sas sr sir se)
                hlen hc hAN hrem,
              decode_byte_addrN_mid w (DState.mk sb sst sa sas sr tir se)
                hlen hc hAN hrem]
            exact ⟨rfl, rfl, rfl, rfl, rfl, rfl, fun hn => rfl⟩
        · by_cases hRW : sst = .RW_ID
          · rw [decode_byte_rwid w (DState.mk sb sst sa sas sr sir se) hlen
                hc hRW,
              decode_byte_rwid w (DState.mk sb sst sa tas sr tir se) hlen
                hc hRW]
            refine ⟨rfl, rfl, rfl, rfl, rfl, rfl, fun hn => ?_⟩
            split_ifs at hn
          · rw [decode_byte_data w (DState.mk sb sst sa sas sr sir se) hlen
                hc hI hA0 hAN hRW,
              decode_byte_data w (DState.mk sb sst sa tas sr tir se) hlen
                hc hI hA0 hAN hRW]
            exact ⟨rfl, rfl, rfl, rfl, rfl, rfl, fun hn => has2 hn⟩

lemma classifyStep_obsEq (u : ℚ) (w : Nat) (s t : DState) (fall rise : Int)
    (h : obsEq s t) :
    (classifyStep u w s fall rise).2 = (classifyStep u w t fall rise).2 ∧
      obsEq (classifyStep u w s fall rise).1
        (classifyStep u w t fall rise).1 := by
  obtain ⟨hb, hst, ha, hr, he, has⟩ := h
  cases s with
  | mk sb sst sa sas sr sir se =>
  cases t with
  | mk tb tst ta tas tr tir te =>
  have hb2 : sb = tb := hb
  have hst2 : sst = tst := hst
  have ha2 : sa = ta := ha
  have hr2 : sr = tr := hr
  have he2 : se = te := he
  subst hb2
  subst hst2
  subst ha2
  subst hr2
  subst he2
  have has2 : sst = .ADDR_N → sas = tas := has
  cases hcl : classifyLow u ((rise - fall : Int) : ℚ) with
  | none =>
      simp only [classifyStep, hcl]
      split_ifs <;>
        (refine ⟨?_, ?_, ?_, ?_, ?_, ?_, fun hn => ?_⟩ <;>
          first
            | rfl
            | trivial
            | exact has2 hn
            | simp [resync] at hn
            | simp at hn)
  | some b =>
      simp only [classifyStep, hcl]
      split_ifs <;>
        first
          | (refine ⟨?_, ?_, ?_, ?_, ?_, ?_, fun hn => ?_⟩ <;>
              first
                | rfl
                | trivial
                | exact has2 hn
                | simp [resync] at hn
                | simp at hn)
          | (have hd := decode_slave_obsEq
              (DState.mk (sb ++ [(b, fall, bitEnd u fall)]) sst sa sas sr sir 0)
              (DState.mk (sb ++ [(b, fall, bitEnd u fall)]) sst sa tas sr tir 0)
              ⟨rfl, rfl, rfl, rfl, rfl, fun hn => has2 hn⟩
             obtain ⟨k1, k2, k3, k4, k5, k6⟩ := hd.2
             refine ⟨?_, k1, rfl, k3, k4, k5, fun hn => ?_⟩
             · first
                 | exact congrArg (List.cons ⟨fall, bitEnd u fall, ANN_BIT,
                     [toString b]⟩) (congrArg Prod.fst hd.1)
                 | exact congrArg Prod.fst hd.1
             · simp at hn)
          | (have hd := decode_byte_obsEq w
              (DState.mk sb sst sa sas sr sir 0)
              (DState.mk sb sst sa tas sr tir 0)
              (by assumption)
              ⟨rfl, rfl, rfl, rfl, rfl, fun hn => has2 hn⟩
             exact ⟨congrArg Prod.fst hd.1, hd.2⟩)

lemma gapCheck_obsEq (u : ℚ) (s t : DState) (lr : Option Int) (fall : Int)
    (h : obsEq s t) :
    (gapCheck u s lr fall).2 = (gapCheck u t lr fall).2 ∧
      obsEq (gapCheck u s lr fall).1 (gapCheck u t lr fall).1 := by
  obtain ⟨hb, hst, ha, hr, he, has⟩ := h
  cases s with
  | mk sb sst sa sas sr sir se =>
  cases t with
  | mk tb tst ta tas tr tir te =>
  have hb2 : sb = tb := hb
  have hst2 : sst = tst := hst
  have ha2 : sa = ta := ha
  have hr2 : sr = tr := hr
  have he2 : se = te := he
  subst hb2
  subst hst2
  subst ha2
  subst hr2
  subst he2
  have has2 : sst = .ADDR_N → sas = tas := has
  cases lr with
  | none => exact ⟨rfl, rfl, rfl, rfl, rfl, rfl, fun hn => has2 hn⟩
  | some l =>
      simp only [gapCheck]
      split_ifs <;>
        (refine ⟨?_, ?_, ?_, ?_, ?_, ?_, fun hn => ?_⟩ <;>
          first
            | rfl
            | trivial
            | exact has2 hn
            | simp [resync] at hn
            | simp at hn)

lemma processPulse_obsEq (u : ℚ) (w : Nat) (s t : DState) (lr : Option Int)
    (p : Int × Int) (h : obsEq s t) :
    (processPulse u w s lr p).2 = (processPulse u w t lr p).2 ∧
      obsEq (processPulse u w s lr p).1 (processPulse u w t lr p).1 := by
  obtain ⟨hg1, hg2⟩ := gapCheck_obsEq u s t lr p.1 h
  obtain ⟨hc1, hc2⟩ := classifyStep_obsEq u w (gapCheck u s lr p.1).1
    (gapCheck u t lr p.1).1 p.1 p.2 hg2
  simp only [processPulse]
  exact ⟨by rw [hg1, hc1], hc2⟩

lemma runPulses_obsEq (u : ℚ) (w : Nat) :
    ∀ (ps : List (Int × Int)) (s t : DState) (lr : Option Int), obsEq s t →
      (runPulses u w s lr ps).2 = (runPulses u w t lr ps).2 ∧
        obsEq (runPulses u w s lr ps).1 (runPulses u w t lr ps).1
  | [], s, t, lr, h => ⟨rfl, h⟩
  | p :: ps, s, t, lr, h => by
      obtain ⟨h1, h2⟩ := processPulse_obsEq u w s t lr p h
      obtain ⟨ih1, ih2⟩ := runPulses_obsEq u w ps (processPulse u w s lr p).1
        (processPulse u w t lr p).1 (some p.2) h2
      simp only [runPulses]
      exact ⟨by rw [h1, ih1], ih2⟩

lemma update_eb (s : DState) (h : s.errors = 0) (X : List (Nat × Int × Int)) :
    ({ s with errors := 0, bits := X } : DState) = { s with bits := X } := by
  cases s
  simp_all

lemma processPulse_master_first (u : ℚ) (w : Nat) (s : DState)
    (lr : Option Int) (p : Int × Int) (b : Nat) (hu : 0 < u) (hble : b ≤ 1)
    (hv : bitPulse u b p) (hst : isMasterSt s.state = true) (hb : s.bits = []) :
    processPulse u w s lr p =
      ({ s with errors := 0, bits := [tupleOf u b p] },
       [bitAnnOf u ANN_CMD_BIT b p]) := by
  have hg : gapCheck u s lr p.1 = (s, []) := by
    cases lr with
    | none => rfl
    | some lr0 =>
        apply gapCheck_noFire
        rintro ⟨-, hin, -⟩
        exact not_inFrame_master s hb hst hin
  rw [processPulse_of_gapCheck u w s lr p hg,
    classifyStep_master_append u w s p.1 p.2 b hst (by simp [hb])
      (classifyLow_of_bitPulse u b p hu hble hv)]
  simp [hb, tupleOf, bitAnnOf]

lemma processPulse_master_mid (u : ℚ) (w : Nat) (s : DState) (lr : Int)
    (p : Int × Int) (b : Nat) (hu : 0 < u) (hble : b ≤ 1) (hv : bitPulse u b p)
    (hst : isMasterSt s.state = true) (hb : s.bits ≠ [])
    (hlen : s.bits.length ≠ 9) (hgap : ((p.1 - lr : Int) : ℚ) ≤ u * 10) :
    processPulse u w s (some lr) p =
      ({ s with errors := 0, bits := s.bits ++ [tupleOf u b p] },
       [bitAnnOf u ANN_BIT b p]) := by
  have hg : gapCheck u s (some lr) p.1 = (s, []) := by
    apply gapCheck_noFire
    rintro ⟨-, -, hgt⟩
    exact absurd hgt (not_lt.mpr hgap)
  rw [processPulse_of_gapCheck u w s (some lr) p hg,
    classifyStep_master_append u w s p.1 p.2 b hst hlen
      (classifyLow_of_bitPulse u b p hu hble hv)]
  have h0 : ¬ s.bits.length = 0 := by
    simpa [List.length_eq_zero] using hb
  simp [h0, tupleOf, bitAnnOf]

lemma processPulse_master_end (u : ℚ) (w : Nat) (s : DState) (lr : Int)
    (p : Int × Int) (hv : validLow0 u (lowT p) ∨ validLow1 u (lowT p))
    (hst : isMasterSt s.state = true) (hlen : s.bits.length = 9)
    (hgap : ((p.1 - lr : Int) : ℚ) ≤ u * 10) :
    processPulse u w s (some lr) p =
      ((decode_byte w { s with errors := 0 }).1,
       (decode_byte w { s with errors := 0 }).2.1) := by
  have hg : gapCheck u s (some lr) p.1 = (s, []) := by
    apply gapCheck_noFire
    rintro ⟨-, -, hgt⟩
    exact absurd hgt (not_lt.mpr hgap)
  rw [processPulse_of_gapCheck u w s (some lr) p hg,
    classifyStep_master_decode u w s p.1 p.2 _ hst hlen
      (classifyLow_of_validAny u p hv)]

lemma masterBits_run (u : ℚ) (w : Nat) (hu : 0 < u) :
    ∀ (bs : List Nat) (bps : List (Int × Int)) (s : DState) (lr : Int),
      isMasterSt s.state = true → s.errors = 0 → s.bits ≠ [] →
      s.bits.length + bs.length ≤ 9 → pulsesMatch u bs bps →
      chainFrom u lr bps →
      runPulses u w s (some lr) bps =
        ({ s with bits := s.bits ++ tuplesOf u bs bps },
         List.zipWith (bitAnnOf u ANN_BIT) bs bps)
  | [], [], s, lr, _, _, _, _, _, _ => by
      simp [runPulses, tuplesOf]
  | [], _ :: _, s, lr, _, _, _, _, hpm, _ => hpm.elim
  | _ :: _, [], s, lr, _, _, _, _, hpm, _ => hpm.elim
  | b :: bs, p :: ps, s, lr, hst, he, hb, hlen, hpm, hch => by
      obtain ⟨⟨hble, hbp⟩, hpm'⟩ := hpm
      obtain ⟨hg, hch'⟩ := hch
      rw [runPulses_cons,
        processPulse_master_mid u w s lr p b hu hble hbp hst hb
          (by simp at hlen; omega) hg,
        update_eb s he,
        masterBits_run u w hu bs ps { s with bits := s.bits ++ [tupleOf u b p] }
          p.2 hst he (by simp) (by simp at hlen ⊢; omega) hpm' hch']
      simp [tuplesOf, List.zipWith_cons_cons, List.append_assoc]

lemma masterFrame_run (u : ℚ) (w : Nat) (hu : 0 < u) (s : DState) (f : MFrame)
    (hst : isMasterSt s.state = true) (hb : s.bits = []) (he : s.errors = 0)
    (hwf : wfMFrame u f) (lr : Option Int) :
    runPulses u w s lr f.pulses =
      ((decode_byte w { s with bits := tuplesOf u f.bs f.bps }).1,
       frameBitAnns u f.bs f.bps ++
         (decode_byte w { s with bits := tuplesOf u f.bs f.bps }).2.1) := by
  obtain ⟨bs, bps, ep⟩ := f
  obtain ⟨hlen9, hpm, hep, hic⟩ := hwf
  simp only [MFrame.pulses] at *
  cases bs with
  | nil => simp at hlen9
  | cons b0 bs' =>
    cases bps with
    | nil => exact hpm.elim
    | cons p0 ps' =>
      obtain ⟨⟨hble, hbp⟩, hpm'⟩ := hpm
      have hlen8 : bs'.length = 8 := by simpa using hlen9
      have hlps : bs'.length = ps'.length := pulsesMatch_length u bs' ps' hpm'
      simp only [innerChain, List.cons_append] at hic
      rw [chainFrom_append u ps' [ep] p0.2] at hic
      obtain ⟨hic1, hic2⟩ := hic
      have hgap_ep : ((ep.1 - lastRiseOf p0.2 ps' : Int) : ℚ) ≤ u * 10 := hic2.1
      rw [List.cons_append, runPulses_cons,
        processPulse_master_first u w s lr p0 b0 hu hble hbp hst hb,
        update_eb s he,
        runPulses_append u w ps' [ep],
        masterBits_run u w hu bs' ps' { s with bits := [tupleOf u b0 p0] } p0.2
          hst he (by simp) (by simp [hlen8]) hpm' hic1,
        lastRiseAfter_some]
      have hT9 : (tupleOf u b0 p0 :: tuplesOf u bs' ps').length = 9 := by
        simp [tuplesOf_length, ← hlps, hlen8]
      rw [show ({ ({ s with bits := [tupleOf u b0 p0] } : DState) with
            bits := ({ s with bits := [tupleOf u b0 p0] } : DState).bits ++
              tuplesOf u bs' ps' } : DState) =
          { s with bits := tupleOf u b0 p0 :: tuplesOf u bs' ps' } from by simp]
      rw [show runPulses u w
            ({ s with bits := tupleOf u b0 p0 :: tuplesOf u bs' ps' } : DState)
            (some (lastRiseOf p0.2 ps')) [ep] =
          ((processPulse u w
              { s with bits := tupleOf u b0 p0 :: tuplesOf u bs' ps' }
              (some (lastRiseOf p0.2 ps')) ep).1,
           (processPulse u w
              { s with bits := tupleOf u b0 p0 :: tuplesOf u bs' ps' }
              (some (lastRiseOf p0.2 ps')) ep).2 ++ []) from runPulses_cons _ _ _ _ _ _,
        processPulse_master_end u w
          { s with bits := tupleOf u b0 p0 :: tuplesOf u bs' ps' }
          (lastRiseOf p0.2 ps') ep hep hst (by simpa using hT9) hgap_ep,
        update_errors_self _ (by exact he)]
      simp [frameBitAnns, tuplesOf, List.zipWith_cons_cons]

lemma processPulse_trig (u : ℚ) (w : Nat) (s : DState) (lr : Option Int)
    (p : Int × Int) (hv : validLow0 u (lowT p) ∨ validLow1 u (lowT p))
    (hst : s.state = .READ_TRIG) (hb : s.bits = []) :
    processPulse u w s lr p =
      ({ s with errors := 0, state := .READ_DATA },
       [⟨p.1, p.2, ANN_TRIG, ["Trigger", "T", ">"]⟩]) := by
  have hg : gapCheck u s lr p.1 = (s, []) := by
    cases lr with
    | none => rfl
    | some lr0 =>
        apply gapCheck_noFire
        rintro ⟨-, hin, -⟩
        exact not_inFrame_of s hb (by simp [hst]) (by simp [hst]) hin
  rw [processPulse_of_gapCheck u w s lr p hg,
    classifyStep_readTrig u w s p.1 p.2 _ hst (classifyLow_of_validAny u p hv)]

lemma processPulse_cont (u : ℚ) (w : Nat) (s : DState) (lr : Option Int)
    (p : Int × Int) (hu : 0 < u) (hv : bitPulse u 0 p)
    (hst : s.state = .READ_TRIG_OR_END) (hb : s.bits = []) :
    processPulse u w s lr p =
      ({ s with errors := 0, state := .READ_DATA },
       [⟨p.1, p.2, ANN_TRIG, ["Trigger", "T", ">"]⟩]) := by
  have hg : gapCheck u s lr p.1 = (s, []) := by
    cases lr with
    | none => rfl
    | some lr0 =>
        apply gapCheck_noFire
        rintro ⟨-, hin, -⟩
        exact not_inFrame_of s hb (by simp [hst]) (by simp [hst]) hin
  rw [processPulse_of_gapCheck u w s lr p hg,
    classifyStep_trigOrEnd0 u w s p.1 p.2 hst
      (classifyLow_of_bitPulse u 0 p hu (by omega) hv)]

lemma processPulse_cmd1 (u : ℚ) (w : Nat) (s : DState) (lr : Option Int)
    (p : Int × Int) (hu : 0 < u) (hv : bitPulse u 1 p)
    (hst : s.state = .READ_TRIG_OR_END) (hb : s.bits = []) :
    processPulse u w s lr p =
      ({ s with errors := 0, bits := [tupleOf u 1 p], state := .DATA },
       [⟨p.1, bitEnd u p.1, ANN_CMD_BIT, [toString 1]⟩]) := by
  have hg : gapCheck u s lr p.1 = (s, []) := by
    cases lr with
    | none => rfl
    | some lr0 =>
        apply gapCheck_noFire
        rintro ⟨-, hin, -⟩
        exact not_inFrame_of s hb (by simp [hst]) (by simp [hst]) hin
  rw [processPulse_of_gapCheck u w s lr p hg,
    classifyStep_trigOrEnd1 u w s p.1 p.2 hst
      (classifyLow_of_bitPulse u 1 p hu (by omega) hv)]
  simp [hb, tupleOf]

lemma processPulse_slave_append (u : ℚ) (w : Nat) (s : DState) (lr : Int)
    (p : Int × Int) (b : Nat) (hu : 0 < u) (hble : b ≤ 1) (hv : bitPulse u b p)
    (hst : s.state = .READ_DATA) (hlen : s.bits.length + 1 ≠ 8)
    (hgap : ((p.1 - lr : Int) : ℚ) ≤ u * 10) :
    processPulse u w s (some lr) p =
      ({ s with errors := 0, bits := s.bits ++ [tupleOf u b p] },
       [bitAnnOf u ANN_BIT b p]) := by
  have hg : gapCheck u s (some lr) p.1 = (s, []) := by
    apply gapCheck_noFire
    rintro ⟨-, -, hgt⟩
    exact absurd hgt (not_lt.mpr hgap)
  rw [processPulse_of_gapCheck u w s (some lr) p hg,
    classifyStep_readData_append u w s p.1 p.2 b hst hlen
      (classifyLow_of_bitPulse u b p hu hble hv)]
  simp [tupleOf, bitAnnOf]

lemma processPulse_slave_byte (u : ℚ) (w : Nat) (s : DState) (lr : Int)
    (p : Int × Int) (b : Nat) (hu : 0 < u) (hble : b ≤ 1) (hv : bitPulse u b p)
    (hst : s.state = .READ_DATA) (hlen : s.bits.length = 7)
    (hgap : ((p.1 - lr : Int) : ℚ) ≤ u * 10) :
    processPulse u w s (some lr) p =
      ({ s with errors := 0, bits := [], state := .SLAVE_END },
       [bitAnnOf u ANN_BIT b p,
        ⟨((s.bits ++ [tupleOf u b p]).getD 0 d0).2.1,
         ((s.bits ++ [tupleOf u b p]).getD 7 d0).2.2, ANN_BYTE,
         [pyHex 2 (byteFold ((s.bits ++ [tupleOf u b p]).take 8))]⟩,
        ⟨((s.bits ++ [tupleOf u b p]).getD 0 d0).2.1,
         ((s.bits ++ [tupleOf u b p]).getD 7 d0).2.2, ANN_DATA_S,
         [pyHex 2 (byteFold ((s.bits ++ [tupleOf u b p]).take 8))]⟩]) := by
  have hg : gapCheck u s (some lr) p.1 = (s, []) := by
    apply gapCheck_noFire
    rintro ⟨-, -, hgt⟩
    exact absurd hgt (not_lt.mpr hgap)
  rw [processPulse_of_gapCheck u w s (some lr) p hg,
    classifyStep_readData_byte u w s p.1 p.2 b hst hlen
      (classifyLow_of_bitPulse u b p hu hble hv)]
  simp [tupleOf, bitAnnOf]

lemma processPulse_spacer (u : ℚ) (w : Nat) (s : DState) (lr : Int)
    (p : Int × Int) (hv : validLow0 u (lowT p) ∨ validLow1 u (lowT p))
    (hst : s.state = .SLAVE_END) (hgap : ((p.1 - lr : Int) : ℚ) ≤ u * 10) :
    processPulse u w s (some lr) p =
      ({ s with errors := 0, state := .READ_TRIG_OR_END }, []) := by
  have hg : gapCheck u s (some lr) p.1 = (s, []) := by
    apply gapCheck_noFire
    rintro ⟨-, -, hgt⟩
    exact absurd hgt (not_lt.mpr hgap)
  rw [processPulse_of_gapCheck u w s (some lr) p hg,
    classifyStep_slaveEnd u w s p.1 p.2 _ hst (classifyLow_of_validAny u p hv)]

lemma update_es (s : DState) (h : s.errors = 0) (st : St) :
    ({ s with errors := 0, state := st } : DState) = { s with state := st } := by
  cases s
  simp_all

lemma update_ebs (s : DState) (h : s.errors = 0)
    (X : List (Nat × Int × Int)) (st : St) :
    ({ s with errors := 0, bits := X, state := st } : DState) =
      { s with bits := X, state := st } := by
  cases s
  simp_all

lemma frame_decode_inputs (u : ℚ) (f : MFrame) (hwf : wfMFrame u f) :
    (tuplesOf u f.bs f.bps).length = 9 ∧
    ((tuplesOf u f.bs f.bps).getD 0 d0).1 = frameCmd f ∧
    ((tuplesOf u f.bs f.bps).getD 0 d0).2.1 = frameSS f ∧
    ((tuplesOf u f.bs f.bps).getD 8 d0).2.2 = frameES u f ∧
    byteFold (((tuplesOf u f.bs f.bps).drop 1).take 8) = frameVal f := by
  obtain ⟨bs, bps, ep⟩ := f
  obtain ⟨hlen9, hpm, -, -⟩ := hwf
  have hlps := pulsesMatch_length u bs bps hpm
  simp only [wfMFrame] at hlen9 hlps ⊢
  refine ⟨?_, ?_, ?_, ?_, ?_⟩
  · simp only [tuplesOf_length]
    omega
  · rw [tuplesOf_getD u bs bps 0 (by omega) hlps]
    rfl
  · rw [tuplesOf_getD u bs bps 0 (by omega) hlps]
    rfl
  · rw [tuplesOf_getD u bs bps 8 (by omega) hlps]
    rfl
  · cases bs with
    | nil => simp at hlen9
    | cons b0 bs' =>
      cases bps with
      | nil => simp at hlps
      | cons p0 ps' =>
        have h8 : bs'.length = 8 := by simpa using hlen9
        have hlps' : bs'.length = ps'.length := by simpa using hlps
        show byteFold (((tuplesOf u (b0 :: bs') (p0 :: ps')).drop 1).take 8) =
          bitFold (((b0 :: bs').drop 1).take 8)
        rw [show (tuplesOf u (b0 :: bs') (p0 :: ps')).drop 1 =
              tuplesOf u bs' ps' from rfl,
          show ((b0 :: bs') : List Nat).drop 1 = bs' from rfl,
          List.take_of_length_le (by rw [tuplesOf_length]; omega),
          List.take_of_length_le (by omega),
          byteFold_tuplesOf u bs' ps' hlps']

lemma slaveRun_full (u : ℚ) (w : Nat) (hu : 0 < u) :
    ∀ (bs : List Nat) (bps : List (Int × Int)) (s : DState) (lr : Int),
      s.state = .READ_DATA → s.errors = 0 → s.bits.length + bs.length = 8 →
      pulsesMatch u bs bps → chainFrom u lr bps → bs ≠ [] →
      runPulses u w s (some lr) bps =
        ({ s with bits := [], state := .SLAVE_END },
         List.zipWith (bitAnnOf u ANN_BIT) bs bps ++
           [⟨((s.bits ++ tuplesOf u bs bps).getD 0 d0).2.1,
             ((s.bits ++ tuplesOf u bs bps).getD 7 d0).2.2, ANN_BYTE,
             [pyHex 2 (byteFold ((s.bits ++ tuplesOf u bs bps).take 8))]⟩,
            ⟨((s.bits ++ tuplesOf u bs bps).getD 0 d0).2.1,
             ((s.bits ++ tuplesOf u bs bps).getD 7 d0).2.2, ANN_DATA_S,
             [pyHex 2 (byteFold ((s.bits ++ tuplesOf u bs bps).take 8))]⟩])
  | [], _, s, lr, _, _, _, _, _, hne => absurd rfl hne
  | _ :: _, [], s, lr, _, _, _, hpm, _, _ => hpm.elim
  | [b], p :: ps, s, lr, hst, he, hlen, hpm, hch, _ => by
      cases ps with
      | cons p2 ps' => exact hpm.2.elim
      | nil =>
          obtain ⟨⟨hble, hbp⟩, -⟩ := hpm
          rw [show runPulses u w s (some lr) [p] =
                ((processPulse u w s (some lr) p).1,
                 (processPulse u w s (some lr) p).2 ++ []) from
              runPulses_cons _ _ _ _ _ _,
            processPulse_slave_byte u w s lr p b hu hble hbp hst
              (by simpa using hlen) hch.1,
            update_ebs s he]
          simp [tuplesOf, List.zipWith_cons_cons]
  | b :: b2 :: bs, p :: ps, s, lr, hst, he, hlen, hpm, hch, _ => by
      obtain ⟨⟨hble, hbp⟩, hpm'⟩ := hpm
      obtain ⟨hg, hch'⟩ := hch
      rw [runPulses_cons,
        processPulse_slave_append u w s lr p b hu hble hbp hst
          (by simp at hlen ⊢; omega) hg,
        update_eb s he,
        slaveRun_full u w hu (b2 :: bs) ps
          { s with bits := s.bits ++ [tupleOf u b p] } p.2 hst he
          (by simp at hlen ⊢; omega) hpm' hch' (by simp)]
      simp [tuplesOf, List.zipWith_cons_cons, List.append_assoc]

lemma readGroup_run (u : ℚ) (w : Nat) (hu : 0 < u) (s : DState) (g : RGroup)
    (hst : s.state = .READ_TRIG ∨ s.state = .READ_TRIG_OR_END)
    (hb : s.bits = []) (he : s.errors = 0) (hwf : wfRGroup u g)
    (lr : Option Int) :
    runPulses u w s lr g.pulses =
      ({ s with bits := [], state := .READ_TRIG_OR_END },
       ⟨g.tp.1, g.tp.2, ANN_TRIG, ["Trigger", "T", ">"]⟩ ::
         (List.zipWith (bitAnnOf u ANN_BIT) g.sbs g.sbps ++
           [⟨slaveSS g, slaveES u g, ANN_BYTE, [pyHex 2 (slaveVal g)]⟩,
            dataSAnnOf u g])) := by
  obtain ⟨tp, sbs, sbps, sp⟩ := g
  obtain ⟨hlen8, htp, hpm, hsp, hic⟩ := hwf
  have hlps := pulsesMatch_length u sbs sbps hpm
  simp only [RGroup.pulses, RGroup.tp, RGroup.sbs, RGroup.sbps, RGroup.sp,
    slaveSS, slaveES, slaveVal, dataSAnnOf] at *
  have hic' : chainFrom u tp.2 (sbps ++ [sp]) := hic
  rw [chainFrom_append u sbps [sp] tp.2] at hic'
  obtain ⟨hic1, hic2⟩ := hic'
  have htrig : processPulse u w s lr tp =
      ({ s with errors := 0, state := .READ_DATA },
       [⟨tp.1, tp.2, ANN_TRIG, ["Trigger", "T", ">"]⟩]) := by
    rcases hst with hst | hst
    · exact processPulse_trig u w s lr tp (Or.inl htp) hst hb
    · exact processPulse_cont u w s lr tp hu htp hst hb
  rw [List.cons_append, runPulses_cons, htrig, update_es s he,
    runPulses_append u w sbps [sp],
    slaveRun_full u w hu sbs sbps { s with state := .READ_DATA } tp.2 rfl he
      (by simp [hb, hlen8]) hpm hic1
      (by intro hh; rw [hh] at hlen8; simp at hlen8),
    lastRiseAfter_some,
    show runPulses u w
        ({ ({ s with state := St.READ_DATA } : DState) with
            bits := [], state := .SLAVE_END } : DState)
        (some (lastRiseOf tp.2 sbps)) [sp] =
      ((processPulse u w
          { ({ s with state := St.READ_DATA } : DState) with
              bits := [], state := .SLAVE_END }
          (some (lastRiseOf tp.2 sbps)) sp).1,
       (processPulse u w
          { ({ s with state := St.READ_DATA } : DState) with
              bits := [], state := .SLAVE_END }
          (some (lastRiseOf tp.2 sbps)) sp).2 ++ []) from
      runPulses_cons _ _ _ _ _ _,
    processPulse_spacer u w
      { ({ s with state := St.READ_DATA } : DState) with
          bits := [], state := .SLAVE_END }
      (lastRiseOf tp.2 sbps) sp hsp rfl hic2.1]
  have e0 : (({ s with state := St.READ_DATA } : DState)).bits ++
      tuplesOf u sbs sbps = tuplesOf u sbs sbps := by simp [hb]
  have eSS : ((tuplesOf u sbs sbps).getD 0 d0).2.1 = (sbps.getD 0 (0, 0)).1 := by
    rw [tuplesOf_getD u sbs sbps 0 (by omega) hlps]
  have eES : ((tuplesOf u sbs sbps).getD 7 d0).2.2 =
      bitEnd u (sbps.getD 7 (0, 0)).1 := by
    rw [tuplesOf_getD u sbs sbps 7 (by omega) hlps]
  have eV : byteFold ((tuplesOf u sbs sbps).take 8) = bitFold (sbs.take 8) := by
    rw [List.take_of_length_le (by rw [tuplesOf_length]; omega),
      List.take_of_length_le (by omega), byteFold_tuplesOf u sbs sbps hlps]
  simp [e0, eSS, eES, eV, he]
  exact ⟨by simpa using eSS, by simpa using eES⟩

lemma frame_run_start (u : ℚ) (w : Nat) (hu : 0 < u) (s : DState) (f : MFrame)
    (hst : isMasterSt s.state = true) (hb : s.bits = []) (he : s.errors = 0)
    (hwf : wfMFrame u f) (hcmd : frameCmd f = 1) (hval : frameVal f = 0x5A)
    (lr : Option Int) :
    runPulses u w s lr f.pulses =
      ({ s with
          state := .ADDR_0, addr_bytes_remaining := (w : Int), addr := 0,
          bits := [], errors := 0 },
       frameBitAnns u f.bs f.bps ++
         ((if s.state ≠ St.IDLE then
             [⟨frameSS f, frameES u f, ANN_ERROR, ["Unexpected START", "RESYNC"]⟩]
           else []) ++
          [⟨frameSS f, frameES u f, ANN_BYTE, [pyHex 2 0x5A]⟩,
           ⟨frameSS f, frameES u f, ANN_START, ["START", "S"]⟩])) := by
  obtain ⟨hT9, hTc, hTss, hTes, hTv⟩ := frame_decode_inputs u f hwf
  rw [masterFrame_run u w hu s f hst hb he hwf lr,
    decode_byte_START w { s with bits := tuplesOf u f.bs f.bps }
      (by simpa using hT9) (hTc.trans hcmd) (hTv.trans hval)]
  simp only [hTss, hTes]

lemma frame_run_addr0 (u : ℚ) (w : Nat) (hu : 0 < u) (s : DState) (f : MFrame)
    (hst : s.state = .ADDR_0) (hb : s.bits = []) (he : s.errors = 0)
    (hwf : wfMFrame u f) (hcmd : frameCmd f = 0)
    (hrem : 1 < s.addr_bytes_remaining) (lr : Option Int) :
    runPulses u w s lr f.pulses =
      ({ s with
          addr := frameVal f, addr_start := frameSS f,
          addr_bytes_remaining := s.addr_bytes_remaining - 1,
          state := .ADDR_N, bits := [] },
       frameBitAnns u f.bs f.bps ++ [byteAnnOf u f]) := by
  obtain ⟨hT9, hTc, hTss, hTes, hTv⟩ := frame_decode_inputs u f hwf
  rw [masterFrame_run u w hu s f (by rw [hst]; rfl) hb he hwf lr,
    decode_byte_addr0 w { s with bits := tuplesOf u f.bs f.bps }
      (by simpa using hT9) (by rw [hTc, hcmd]; omega) hst hrem]
  simp only [hTss, hTes, hTv, byteAnnOf]

lemma frame_run_addrN_mid (u : ℚ) (w : Nat) (hu : 0 < u) (s : DState)
    (f : MFrame) (hst : s.state = .ADDR_N) (hb : s.bits = []) (he : s.errors = 0)
    (hwf : wfMFrame u f) (hcmd : frameCmd f = 0)
    (hrem : s.addr_bytes_remaining ≠ 1) (lr : Option Int) :
    runPulses u w s lr f.pulses =
      ({ s with
          addr := (s.addr <<< 8) ||| frameVal f,
          addr_bytes_remaining := s.addr_bytes_remaining - 1, bits := [] },
       frameBitAnns u f.bs f.bps ++ [byteAnnOf u f]) := by
  obtain ⟨hT9, hTc, hTss, hTes, hTv⟩ := frame_decode_inputs u f hwf
  rw [masterFrame_run u w hu s f (by rw [hst]; rfl) hb he hwf lr,
    decode_byte_addrN_mid w { s with bits := tuplesOf u f.bs f.bps }
      (by simpa using hT9) (by rw [hTc, hcmd]; omega) hst hrem]
  simp only [hTss, hTes, hTv, byteAnnOf]

lemma frame_run_addrN_last (u : ℚ) (w : Nat) (hu : 0 < u) (s : DState)
    (f : MFrame) (hst : s.state = .ADDR_N) (hb : s.bits = []) (he : s.errors = 0)
    (hwf : wfMFrame u f) (hcmd : frameCmd f = 0)
    (hrem : s.addr_bytes_remaining = 1) (lr : Option Int) :
    runPulses u w s lr f.pulses =
      ({ s with
          addr := (s.addr <<< 8) ||| frameVal f,
          addr_bytes_remaining := s.addr_bytes_remaining - 1,
          state := .RW_ID, bits := [] },
       frameBitAnns u f.bs f.bps ++
         [byteAnnOf u f,
          ⟨s.addr_start, frameES u f, ANN_ADDR,
           ["ADDR: " ++ pyHex (w * 2) ((s.addr <<< 8) ||| frameVal f),
            pyHex (w * 2) ((s.addr <<< 8) ||| frameVal f)]⟩]) := by
  obtain ⟨hT9, hTc, hTss, hTes, hTv⟩ := frame_decode_inputs u f hwf
  rw [masterFrame_run u w hu s f (by rw [hst]; rfl) hb he hwf lr,
    decode_byte_addrN_last w { s with bits := tuplesOf u f.bs f.bps }
      (by simpa using hT9) (by rw [hTc, hcmd]; omega) hst hrem]
  simp only [hTss, hTes, hTv, byteAnnOf]

lemma frame_run_rwid (u : ℚ) (w : Nat) (hu : 0 < u) (s : DState) (f : MFrame)
    (hst : s.state = .RW_ID) (hb : s.bits = []) (he : s.errors = 0)
    (hwf : wfMFrame u f) (hcmd : frameCmd f = 0) (lr : Option Int) :
    runPulses u w s lr f.pulses =
      ({ s with
          is_read := decide ((frameVal f &&& 0x80) ≠ 0),
          state :=
            if decide ((frameVal f &&& 0x80) ≠ 0) then .READ_TRIG else .DATA,
          bits := [] },
       frameBitAnns u f.bs f.bps ++ [byteAnnOf u f, rwAnnOf u f]) := by
  obtain ⟨hT9, hTc, hTss, hTes, hTv⟩ := frame_decode_inputs u f hwf
  rw [masterFrame_run u w hu s f (by rw [hst]; rfl) hb he hwf lr,
    decode_byte_rwid w { s with bits := tuplesOf u f.bs f.bps }
      (by simpa using hT9) (by rw [hTc, hcmd]; omega) hst]
  simp only [hTss, hTes, hTv, byteAnnOf, rwAnnOf]

lemma frame_run_data (u : ℚ) (w : Nat) (hu : 0 < u) (s : DState) (f : MFrame)
    (hst : s.state = .DATA) (hb : s.bits = []) (he : s.errors = 0)
    (hwf : wfMFrame u f) (hcmd : frameCmd f = 0) (lr : Option Int) :
    runPulses u w s lr f.pulses =
      ({ s with bits := [] },
       frameBitAnns u f.bs f.bps ++ [byteAnnOf u f, dataMAnnOf u f]) := by
  obtain ⟨hT9, hTc, hTss, hTes, hTv⟩ := frame_decode_inputs u f hwf
  rw [masterFrame_run u w hu s f (by rw [hst]; rfl) hb he hwf lr,
    decode_byte_data w { s with bits := tuplesOf u f.bs f.bps }
      (by simpa using hT9) (by rw [hTc, hcmd]; omega)
      (by simp [hst]) (by simp [hst]) (by simp [hst]) (by simp [hst])]
  simp only [hTss, hTes, hTv, byteAnnOf, dataMAnnOf]

lemma frame_run_end (u : ℚ) (w : Nat) (hu : 0 < u) (s : DState) (f : MFrame)
    (hst : isMasterSt s.state = true) (hb : s.bits = []) (he : s.errors = 0)
    (hwf : wfMFrame u f) (hcmd : frameCmd f = 1) (hval : frameVal f = 0xFF)
    (lr : Option Int) :
    runPulses u w s lr f.pulses =
      ({ s with state := .IDLE, is_read := false, bits := [] },
       frameBitAnns u f.bs f.bps ++
         [⟨frameSS f, frameES u f, ANN_BYTE, [pyHex 2 0xFF]⟩,
          endAnnOf u f]) := by
  obtain ⟨hT9, hTc, hTss, hTes, hTv⟩ := frame_decode_inputs u f hwf
  rw [masterFrame_run u w hu s f hst hb he hwf lr,
    decode_byte_END w { s with bits := tuplesOf u f.bs f.bps }
      (by simpa using hT9) (hTc.trans hcmd) (hTv.trans hval)]
  simp only [hTss, hTes, endAnnOf]

lemma semAnns_append (l1 l2 : List Ann) :
    semAnns (l1 ++ l2) = semAnns l1 ++ semAnns l2 := by
  simp [semAnns]

lemma semAnns_cons (a : Ann) (l : List Ann) :
    semAnns (a :: l) =
      if isSemAnn a = true then a :: semAnns l else semAnns l := by
  simp [semAnns, List.filter_cons]

lemma semAnns_nil : semAnns [] = [] := rfl

lemma semAnns_zip_bitAnns (u : ℚ) :
    ∀ (bs : List Nat) (ps : List (Int × Int)),
      semAnns (List.zipWith (bitAnnOf u ANN_BIT) bs ps) = []
  | [], _ => rfl
  | _ :: _, [] => rfl
  | b :: bs, p :: ps => by
      simp only [List.zipWith_cons_cons, semAnns, List.filter_cons,
        show isSemAnn (bitAnnOf u ANN_BIT b p) = false from rfl,
        Bool.false_eq_true, if_false]
      exact semAnns_zip_bitAnns u bs ps

lemma semAnns_frameBitAnns (u : ℚ) (bs : List Nat) (bps : List (Int × Int)) :
    semAnns (frameBitAnns u bs bps) = [] := by
  cases bs with
  | nil => rfl
  | cons b bs' =>
    cases bps with
    | nil => rfl
    | cons p ps' =>
      simp only [frameBitAnns, semAnns, List.filter_cons,
        show isSemAnn (bitAnnOf u ANN_CMD_BIT b p) = false from rfl,
        Bool.false_eq_true, if_false]
      exact semAnns_zip_bitAnns u bs' ps'

lemma semAnns_zip_bitAnns0 (u : ℚ) (bs : List Nat) (ps : List (Int × Int)) :
    semAnns (List.zipWith (bitAnnOf u 0) bs ps) = [] :=
  semAnns_zip_bitAnns u bs ps

lemma eTail_run (u : ℚ) (w : Nat) (hu : 0 < u) (s : DState) (t : ETail)
    (hst : s.state = .READ_TRIG_OR_END) (hb : s.bits = []) (he : s.errors = 0)
    (hwf : wfETail u t) (lr : Option Int) :
    runPulses u w s lr t.pulses =
      ({ s with bits := [], state := .IDLE, is_read := false },
       ⟨t.cp.1, bitEnd u t.cp.1, ANN_CMD_BIT, [toString 1]⟩ ::
         (List.zipWith (bitAnnOf u ANN_BIT) t.ebs t.ebps ++
           [⟨t.cp.1, bitEnd u (t.ebps.getD 7 (0, 0)).1, ANN_BYTE,
             [pyHex 2 0xFF]⟩,
            endAnnOfTail u t])) := by
  obtain ⟨cp, ebs, ebps, ep⟩ := t
  obtain ⟨hlen8, hcp, hpm, hv, hep, hic⟩ := hwf
  have hlps := pulsesMatch_length u ebs ebps hpm
  simp only [ETail.pulses, ETail.cp, ETail.ebs, ETail.ebps, ETail.ep,
    endAnnOfTail] at *
  have hic' : chainFrom u cp.2 (ebps ++ [ep]) := hic
  rw [chainFrom_append u ebps [ep] cp.2] at hic'
  obtain ⟨hic1, hic2⟩ := hic'
  rw [List.cons_append, runPulses_cons,
    processPulse_cmd1 u w s lr cp hu hcp hst hb,
    update_ebs s he,
    runPulses_append u w ebps [ep],
    masterBits_run u w hu ebs ebps
      { s with bits := [tupleOf u 1 cp], state := .DATA } cp.2 rfl he
      (by simp) (by simp [hlen8]) hpm hic1,
    lastRiseAfter_some]
  have hT9 : (({ s with bits := [tupleOf u 1 cp], state := St.DATA } :
      DState)).bits ++ tuplesOf u ebs ebps =
      tupleOf u 1 cp :: tuplesOf u ebs ebps := by simp
  have hT9l : (tupleOf u 1 cp :: tuplesOf u ebs ebps).length = 9 := by
    simp [tuplesOf_length]
    omega
  rw [show ({ ({ s with bits := [tupleOf u 1 cp], state := St.DATA } :
        DState) with
        bits := ({ s with bits := [tupleOf u 1 cp], state := St.DATA } :
          DState).bits ++ tuplesOf u ebs ebps } : DState) =
      { s with
          bits := tupleOf u 1 cp :: tuplesOf u ebs ebps,
          state := St.DATA } from by simp,
    show runPulses u w
        ({ s with
            bits := tupleOf u 1 cp :: tuplesOf u ebs ebps,
            state := St.DATA } : DState)
        (some (lastRiseOf cp.2 ebps)) [ep] =
      ((processPulse u w
          { s with
              bits := tupleOf u 1 cp :: tuplesOf u ebs ebps,
              state := St.DATA }
          (some (lastRiseOf cp.2 ebps)) ep).1,
       (processPulse u w
          { s with
              bits := tupleOf u 1 cp :: tuplesOf u ebs ebps,
              state := St.DATA }
          (some (lastRiseOf cp.2 ebps)) ep).2 ++ []) from
      runPulses_cons _ _ _ _ _ _,
    processPulse_master_end u w
      { s with
          bits := tupleOf u 1 cp :: tuplesOf u ebs ebps,
          state := St.DATA }
      (lastRiseOf cp.2 ebps) ep hep rfl (by simpa using hT9l) hic2.1,
    update_errors_self _ (by exact he)]
  have hvT : byteFold
      (((tupleOf u 1 cp :: tuplesOf u ebs ebps).drop 1).take 8) = 0xFF := by
    rw [show (tupleOf u 1 cp :: tuplesOf u ebs ebps).drop 1 =
          tuplesOf u ebs ebps from rfl,
      List.take_of_length_le (by rw [tuplesOf_length]; omega),
      byteFold_tuplesOf u ebs ebps hlps]
    exact hv
  rw [decode_byte_END w
      { s with
          bits := tupleOf u 1 cp :: tuplesOf u ebs ebps,
          state := St.DATA }
      (by simpa using hT9l) rfl hvT]
  have eES : ((tupleOf u 1 cp :: tuplesOf u ebs ebps).getD 8 d0).2.2 =
      bitEnd u (ebps.getD 7 (0, 0)).1 := by
    rw [show ((tupleOf u 1 cp :: tuplesOf u ebs ebps).getD 8 d0) =
          ((tuplesOf u ebs ebps).getD 7 d0) from rfl,
      tuplesOf_getD u ebs ebps 7 (by omega) hlps]
  simp [eES]
  exact ⟨rfl, by simpa using eES⟩

lemma dataFrames_run (u : ℚ) (w : Nat) (hu : 0 < u) :
    ∀ (dF : List MFrame) (s : DState) (lr : Option Int),
      s.state = .DATA → s.bits = [] → s.errors = 0 →
      (∀ f ∈ dF, wfMFrame u f ∧ frameCmd f = 0) →
      (runPulses u w s lr (dF.map MFrame.pulses).flatten).1 = s ∧
      semAnns (runPulses u w s lr (dF.map MFrame.pulses).flatten).2 =
        dF.map (dataMAnnOf u)
  | [], s, lr, _, _, _, _ => by
      simp [runPulses, semAnns]
  | f :: dF', s, lr, hst, hb, he, hf => by
      have hself : ({ s with bits := [] } : DState) = s := by
        rw [← hb]
      rw [List.map_cons, List.flatten_cons, runPulses_append u w f.pulses _,
        frame_run_data u w hu s f hst hb he (hf f (by simp)).1
          (hf f (by simp)).2 lr, hself]
      obtain ⟨ih1, ih2⟩ := dataFrames_run u w hu dF' s
        (lastRiseAfter lr f.pulses) hst hb he
        (fun g hg => hf g (by simp [hg]))
      refine ⟨ih1, ?_⟩
      simp only [semAnns_append, semAnns_frameBitAnns, ih2, List.map_cons,
        List.nil_append]
      simp only [semAnns, List.filter_cons,
        show isSemAnn (byteAnnOf u f) = false from rfl,
        show isSemAnn (dataMAnnOf u f) = true from rfl,
        Bool.false_eq_true, if_false, if_true, List.filter_nil]
      rfl

lemma readGroups_run (u : ℚ) (w : Nat) (hu : 0 < u) :
    ∀ (gs : List RGroup) (s : DState) (lr : Option Int),
      s.state = .READ_TRIG_OR_END → s.bits = [] → s.errors = 0 →
      (∀ g ∈ gs, wfRGroup u g) →
      (runPulses u w s lr (gs.map RGroup.pulses).flatten).1 = s ∧
      semAnns (runPulses u w s lr (gs.map RGroup.pulses).flatten).2 =
        gs.map (dataSAnnOf u)
  | [], s, lr, _, _, _, _ => by
      simp [runPulses, semAnns]
  | g :: gs', s, lr, hst, hb, he, hg => by
      have hself : ({ s with bits := [], state := .READ_TRIG_OR_END } :
          DState) = s := by
        rw [← hb, ← hst]
      rw [List.map_cons, List.flatten_cons, runPulses_append u w g.pulses _,
        readGroup_run u w hu s g (Or.inr hst) hb he (hg g (by simp)) lr,
        hself]
      obtain ⟨ih1, ih2⟩ := readGroups_run u w hu gs' s
        (lastRiseAfter lr g.pulses) hst hb he
        (fun g2 hg2 => hg g2 (by simp [hg2]))
      refine ⟨ih1, ?_⟩
      simp only [semAnns_append, List.map_cons]
      simp only [semAnns, List.filter_cons,
        show isSemAnn (⟨g.tp.1, g.tp.2, ANN_TRIG, ["Trigger", "T", ">"]⟩ :
          Ann) = false from rfl,
        Bool.false_eq_true, if_false]
      rw [show List.filter isSemAnn
            (List.zipWith (bitAnnOf u ANN_BIT) g.sbs g.sbps ++
              [⟨slaveSS g, slaveES u g, ANN_BYTE, [pyHex 2 (slaveVal g)]⟩,
               dataSAnnOf u g]) =
          semAnns (List.zipWith (bitAnnOf u ANN_BIT) g.sbs g.sbps ++
              [⟨slaveSS g, slaveES u g, ANN_BYTE, [pyHex 2 (slaveVal g)]⟩,
               dataSAnnOf u g]) from rfl,
        semAnns_append, semAnns_zip_bitAnns]
      simp only [semAnns, List.filter_cons,
        show isSemAnn (⟨slaveSS g, slaveES u g, ANN_BYTE,
          [pyHex 2 (slaveVal g)]⟩ : Ann) = false from rfl,
        show isSemAnn (dataSAnnOf u g) = true from rfl,
        Bool.false_eq_true, if_false, if_true, List.filter_nil]
      rw [show (List.filter isSemAnn (runPulses u w s
            (lastRiseAfter lr g.pulses) (gs'.map RGroup.pulses).flatten).2) =
          semAnns (runPulses u w s (lastRiseAfter lr g.pulses)
            (gs'.map RGroup.pulses).flatten).2 from rfl, ih2]
      rfl

lemma addrFrames_run (u : ℚ) (w : Nat) (hu : 0 < u) (s : DState)
    (aF : List MFrame) (hw : w = 2 ∨ w = 3) (hst : s.state = .ADDR_0)
    (hb : s.bits = []) (he : s.errors = 0)
    (hrem : s.addr_bytes_remaining = (w : Int)) (haL : aF.length = w)
    (haF : ∀ f ∈ aF, wfMFrame u f ∧ frameCmd f = 0) (lr : Option Int) :
    (runPulses u w s lr (aF.map MFrame.pulses).flatten).1 =
      { s with
          addr := aF.foldl (fun a f => (a <<< 8) ||| frameVal f) 0,
          addr_start := frameSS (aF.getD 0 mfDefault),
          addr_bytes_remaining := 0, state := .RW_ID, bits := [] } ∧
    semAnns (runPulses u w s lr (aF.map MFrame.pulses).flatten).2 =
      [addrAnnOf u w (aF.getD 0 mfDefault) (aF.getD (w - 1) mfDefault)
        (aF.foldl (fun a f => (a <<< 8) ||| frameVal f) 0)] := by
  rcases hw with rfl | rfl
  · obtain ⟨a1, a2, rfl⟩ := List.length_eq_two.mp haL
    simp only [List.map_cons, List.map_nil, List.flatten_cons,
      List.flatten_nil, List.append_nil]
    rw [runPulses_append u 2 a1.pulses a2.pulses,
      frame_run_addr0 u 2 hu s a1 hst hb he (haF a1 (by simp)).1
        (haF a1 (by simp)).2 (by rw [hrem]; norm_num) lr,
      frame_run_addrN_last u 2 hu
        { s with
            addr := frameVal a1, addr_start := frameSS a1,
            addr_bytes_remaining := s.addr_bytes_remaining - 1,
            state := .ADDR_N, bits := [] }
        a2 rfl rfl he (haF a2 (by simp)).1 (haF a2 (by simp)).2
        (show s.addr_bytes_remaining - 1 = 1 by rw [hrem]; norm_num)
        (lastRiseAfter lr a1.pulses)]
    constructor
    · simp [hrem, Nat.zero_shiftLeft, Nat.zero_or]
    · simp [semAnns_append, semAnns_frameBitAnns, semAnns_cons, semAnns_nil,
        addrAnnOf, isSemAnn, byteAnnOf, Nat.zero_shiftLeft, Nat.zero_or,
        ANN_BYTE, ANN_ADDR, ANN_START, ANN_RW, ANN_DATA_M, ANN_DATA_S,
        ANN_END, ANN_ERROR]
  · obtain ⟨a1, a2, a3, rfl⟩ := List.length_eq_three.mp haL
    simp only [List.map_cons, List.map_nil, List.flatten_cons,
      List.flatten_nil, List.append_nil]
    rw [runPulses_append u 3 a1.pulses (a2.pulses ++ a3.pulses),
      frame_run_addr0 u 3 hu s a1 hst hb he (haF a1 (by simp)).1
        (haF a1 (by simp)).2 (by rw [hrem]; norm_num) lr,
      runPulses_append u 3 a2.pulses a3.pulses,
      frame_run_addrN_mid u 3 hu
        { s with
            addr := frameVal a1, addr_start := frameSS a1,
            addr_bytes_remaining := s.addr_bytes_remaining - 1,
            state := .ADDR_N, bits := [] }
        a2 rfl rfl he (haF a2 (by simp)).1 (haF a2 (by simp)).2
        (show s.addr_bytes_remaining - 1 ≠ 1 by rw [hrem]; norm_num)
        (lastRiseAfter lr a1.pulses),
      frame_run_addrN_last u 3 hu
        { ({ s with
            addr := frameVal a1, addr_start := frameSS a1,
            addr_bytes_remaining := s.addr_bytes_remaining - 1,
            state := .ADDR_N, bits := [] } : DState) with
            addr := (frameVal a1 <<< 8) ||| frameVal a2,
            addr_bytes_remaining := s.addr_bytes_remaining - 1 - 1,
            bits := [] }
        a3 rfl rfl he (haF a3 (by simp)).1 (haF a3 (by simp)).2
        (show s.addr_bytes_remaining - 1 - 1 = 1 by rw [hrem]; norm_num)
        (lastRiseAfter (lastRiseAfter lr a1.pulses) a2.pulses)]
    constructor
    · simp [hrem, Nat.zero_shiftLeft, Nat.zero_or]
    · simp [semAnns_append, semAnns_frameBitAnns, semAnns_cons, semAnns_nil,
        addrAnnOf, isSemAnn, byteAnnOf, Nat.zero_shiftLeft, Nat.zero_or,
        ANN_BYTE, ANN_ADDR, ANN_START, ANN_RW, ANN_DATA_M, ANN_DATA_S,
        ANN_END, ANN_ERROR]

lemma prefix_run (u : ℚ) (w : Nat) (hu : 0 < u) (sf : MFrame)
    (aF : List MFrame) (rf : MFrame) (hw : w = 2 ∨ w = 3)
    (hwf_sf : wfMFrame u sf) (hc_sf : frameCmd sf = 1)
    (hv_sf : frameVal sf = 0x5A) (haL : aF.length = w)
    (haF : ∀ f ∈ aF, wfMFrame u f ∧ frameCmd f = 0)
    (hwf_rf : wfMFrame u rf) (hc_rf : frameCmd rf = 0)
    (rest : List (Int × Int)) (lr : Option Int) :
    (runPulses u w initState lr
        (sf.pulses ++ ((aF.map MFrame.pulses).flatten ++
          (rf.pulses ++ rest)))).1 =
      (runPulses u w
        { bits := [],
          state :=
            if decide ((frameVal rf &&& 0x80) ≠ 0) then .READ_TRIG else .DATA,
          addr := aF.foldl (fun a f => (a <<< 8) ||| frameVal f) 0,
          addr_start := frameSS (aF.getD 0 mfDefault),
          addr_bytes_remaining := 0,
          is_read := decide ((frameVal rf &&& 0x80) ≠ 0), errors := 0 }
        (lastRiseAfter
          (lastRiseAfter (lastRiseAfter lr sf.pulses)
            (aF.map MFrame.pulses).flatten) rf.pulses) rest).1 ∧
    semAnns (runPulses u w initState lr
        (sf.pulses ++ ((aF.map MFrame.pulses).flatten ++
          (rf.pulses ++ rest)))).2 =
      [startAnnOf u sf,
       addrAnnOf u w (aF.getD 0 mfDefault) (aF.getD (w - 1) mfDefault)
         (aF.foldl (fun a f => (a <<< 8) ||| frameVal f) 0),
       rwAnnOf u rf] ++
        semAnns (runPulses u w
          { bits := [],
            state :=
              if decide ((frameVal rf &&& 0x80) ≠ 0) then .READ_TRIG
              else .DATA,
            addr := aF.foldl (fun a f => (a <<< 8) ||| frameVal f) 0,
            addr_start := frameSS (aF.getD 0 mfDefault),
            addr_bytes_remaining := 0,
            is_read := decide ((frameVal rf &&& 0x80) ≠ 0), errors := 0 }
          (lastRiseAfter
            (lastRiseAfter (lastRiseAfter lr sf.pulses)
              (aF.map MFrame.pulses).flatten) rf.pulses) rest).2 := by
  rw [runPulses_append u w sf.pulses _,
    frame_run_start u w hu initState sf rfl rfl rfl hwf_sf hc_sf hv_sf lr,
    runPulses_append u w (aF.map MFrame.pulses).flatten _]
  obtain ⟨ha1, ha2⟩ := addrFrames_run u w hu
    { initState with
        state := .ADDR_0, addr_bytes_remaining := (w : Int), addr := 0,
        bits := [], errors := 0 }
    aF hw rfl rfl rfl rfl haL haF (lastRiseAfter lr sf.pulses)
  rw [ha1, runPulses_append u w rf.pulses rest,
    frame_run_rwid u w hu
      { ({ initState with
          state := .ADDR_0, addr_bytes_remaining := (w : Int), addr := 0,
          bits := [], errors := 0 } : DState) with
          addr := aF.foldl (fun a f => (a <<< 8) ||| frameVal f) 0,
          addr_start := frameSS (aF.getD 0 mfDefault),
          addr_bytes_remaining := 0, state := .RW_ID, bits := [] }
      rf rfl rfl rfl hwf_rf hc_rf _]
  constructor
  · rfl
  · simp only [semAnns_append, ha2, semAnns_frameBitAnns]
    simp [initState, semAnns_cons, semAnns_nil, isSemAnn, startAnnOf,
      rwAnnOf, byteAnnOf, ANN_BYTE, ANN_START, ANN_ADDR, ANN_RW,
      ANN_DATA_M, ANN_DATA_S, ANN_END, ANN_ERROR]

/-- C1: a well-formed transaction stream (START frame, `w` address frames,
RW/ID frame, K data units of the declared direction, END) decoded from a
fresh decoder emits exactly one START event, one address event spanning all
address frames, one direction/ID event, the K data-byte events in stream
order, and one END event, with no error events in between: the semantic
annotations are exactly that five-part list.  The first conjunct covers
write transactions (RW bit 7 clear, K master data frames), the second read
transactions (RW bit 7 set, K = 1 + |gs| slave byte groups then the END
tail). -/
theorem swire_C1 :
    (∀ (sr : ℚ) (br w : Nat) (sf rf ef : MFrame) (aF dF : List MFrame),
      0 < sr → 0 < br → (w = 2 ∨ w = 3) →
      wfMFrame (sr / ((br : ℚ) * 5)) sf → frameCmd sf = 1 →
      frameVal sf = 0x5A →
      aF.length = w →
      (∀ f ∈ aF, wfMFrame (sr / ((br : ℚ) * 5)) f ∧ frameCmd f = 0) →
      wfMFrame (sr / ((br : ℚ) * 5)) rf → frameCmd rf = 0 →
      frameVal rf &&& 0x80 = 0 →
      (∀ f ∈ dF, wfMFrame (sr / ((br : ℚ) * 5)) f ∧ frameCmd f = 0) →
      wfMFrame (sr / ((br : ℚ) * 5)) ef → frameCmd ef = 1 →
      frameVal ef = 0xFF →
      ∃ out,
        decode (some sr) br w
            (sf.pulses ++ (aF.map MFrame.pulses).flatten ++ rf.pulses ++
              (dF.map MFrame.pulses).flatten ++ ef.pulses) =
          .ok out ∧
        semAnns out =
          [startAnnOf (sr / ((br : ℚ) * 5)) sf,
           addrAnnOf (sr / ((br : ℚ) * 5)) w (aF.getD 0 mfDefault)
             (aF.getD (w - 1) mfDefault)
             (aF.foldl (fun a f => (a <<< 8) ||| frameVal f) 0),
           rwAnnOf (sr / ((br : ℚ) * 5)) rf] ++
            dF.map (dataMAnnOf (sr / ((br : ℚ) * 5))) ++
            [endAnnOf (sr / ((br : ℚ) * 5)) ef]) ∧
    (∀ (sr : ℚ) (br w : Nat) (sf rf : MFrame) (aF : List MFrame)
        (g1 : RGroup) (gs : List RGroup) (tl : ETail),
      0 < sr → 0 < br → (w = 2 ∨ w = 3) →
      wfMFrame (sr / ((br : ℚ) * 5)) sf → frameCmd sf = 1 →
      frameVal sf = 0x5A →
      aF.length = w →
      (∀ f ∈ aF, wfMFrame (sr / ((br : ℚ) * 5)) f ∧ frameCmd f = 0) →
      wfMFrame (sr / ((br : ℚ) * 5)) rf → frameCmd rf = 0 →
      frameVal rf &&& 0x80 ≠ 0 →
      wfRGroup (sr / ((br : ℚ) * 5)) g1 →
      (∀ g ∈ gs, wfRGroup (sr / ((br : ℚ) * 5)) g) →
      wfETail (sr / ((br : ℚ) * 5)) tl →
      ∃ out,
        decode (some sr) br w
            (sf.pulses ++ (aF.map MFrame.pulses).flatten ++ rf.pulses ++
              g1.pulses ++ (gs.map RGroup.pulses).flatten ++ tl.pulses) =
          .ok out ∧
        semAnns out =
          [startAnnOf (sr / ((br : ℚ) * 5)) sf,
           addrAnnOf (sr / ((br : ℚ) * 5)) w (aF.getD 0 mfDefault)
             (aF.getD (w - 1) mfDefault)
             (aF.foldl (fun a f => (a <<< 8) ||| frameVal f) 0),
           rwAnnOf (sr / ((br : ℚ) * 5)) rf] ++
            (g1 :: gs).map (dataSAnnOf (sr / ((br : ℚ) * 5))) ++
            [endAnnOfTail (sr / ((br : ℚ) * 5)) tl]) := by
  constructor
  · intro sr br w sf rf ef aF dF hsr hbr hw hwf_sf hc_sf hv_sf haL haF
      hwf_rf hc_rf hwr hdF hwf_ef hc_ef hv_ef
    have hu : 0 < sr / ((br : ℚ) * 5) :=
      div_pos hsr (mul_pos (by exact_mod_cast hbr) (by norm_num))
    have hir : (decide ((frameVal rf &&& 0x80) ≠ 0)) = false := by
      simp [hwr]
    refine ⟨(runPulses (sr / ((br : ℚ) * 5)) w initState none
      (sf.pulses ++ (aF.map MFrame.pulses).flatten ++ rf.pulses ++
        (dF.map MFrame.pulses).flatten ++ ef.pulses)).2, ?_, ?_⟩
    · simp only [decode]
      rw [if_neg (ne_of_gt hsr)]
    · simp only [List.append_assoc]
      obtain ⟨hc1, hc2⟩ := prefix_run (sr / ((br : ℚ) * 5)) w hu sf aF rf hw
        hwf_sf hc_sf hv_sf haL haF hwf_rf hc_rf
        ((dF.map MFrame.pulses).flatten ++ ef.pulses) none
      rw [hc2]
      simp only [hir, Bool.false_eq_true, if_false]
      rw [runPulses_append (sr / ((br : ℚ) * 5)) w
        (dF.map MFrame.pulses).flatten ef.pulses]
      obtain ⟨hd1, hd2⟩ := dataFrames_run (sr / ((br : ℚ) * 5)) w hu dF
        { bits := [], state := .DATA,
          addr := aF.foldl (fun a f => (a <<< 8) ||| frameVal f) 0,
          addr_start := frameSS (aF.getD 0 mfDefault),
          addr_bytes_remaining := 0, is_read := false, errors := 0 }
        (lastRiseAfter
          (lastRiseAfter (lastRiseAfter none sf.pulses)
            (aF.map MFrame.pulses).flatten) rf.pulses) rfl rfl rfl hdF
      rw [semAnns_append, hd2, hd1,
        frame_run_end (sr / ((br : ℚ) * 5)) w hu
          { bits := [], state := .DATA,
            addr := aF.foldl (fun a f => (a <<< 8) ||| frameVal f) 0,
            addr_start := frameSS (aF.getD 0 mfDefault),
            addr_bytes_remaining := 0, is_read := false, errors := 0 }
          ef rfl rfl rfl hwf_ef hc_ef hv_ef _]
      simp [semAnns_append, semAnns_frameBitAnns, semAnns_cons, semAnns_nil,
        isSemAnn, endAnnOf, ANN_BYTE, ANN_START, ANN_ADDR, ANN_RW,
        ANN_DATA_M, ANN_DATA_S, ANN_END, ANN_ERROR]
  · intro sr br w sf rf aF g1 gs tl hsr hbr hw hwf_sf hc_sf hv_sf haL haF
      hwf_rf hc_rf hrd hwg1 hgs hwtl
    have hu : 0 < sr / ((br : ℚ) * 5) :=
      div_pos hsr (mul_pos (by exact_mod_cast hbr) (by norm_num))
    have hir : (decide ((frameVal rf &&& 0x80) ≠ 0)) = true := by
      simp [hrd]
    refine ⟨(runPulses (sr / ((br : ℚ) * 5)) w initState none
      (sf.pulses ++ (aF.map MFrame.pulses).flatten ++ rf.pulses ++
        g1.pulses ++ (gs.map RGroup.pulses).flatten ++ tl.pulses)).2, ?_, ?_⟩
    · simp only [decode]
      rw [if_neg (ne_of_gt hsr)]
    · simp only [List.append_assoc]
      obtain ⟨hc1, hc2⟩ := prefix_run (sr / ((br : ℚ) * 5)) w hu sf aF rf hw
        hwf_sf hc_sf hv_sf haL haF hwf_rf hc_rf
        (g1.pulses ++ ((gs.map RGroup.pulses).flatten ++ tl.pulses)) none
      rw [hc2]
      simp only [hir, if_true]
      rw [runPulses_append (sr / ((br : ℚ) * 5)) w g1.pulses
        ((gs.map RGroup.pulses).flatten ++ tl.pulses),
        readGroup_run (sr / ((br : ℚ) * 5)) w hu
          { bits := [], state := .READ_TRIG,
            addr := aF.foldl (fun a f => (a <<< 8) ||| frameVal f) 0,
            addr_start := frameSS (aF.getD 0 mfDefault),
            addr_bytes_remaining := 0, is_read := true, errors := 0 }
          g1 (Or.inl rfl) rfl rfl hwg1 _,
        runPulses_append (sr / ((br : ℚ) * 5)) w
          (gs.map RGroup.pulses).flatten tl.pulses]
      obtain ⟨hg1, hg2⟩ := readGroups_run (sr / ((br : ℚ) * 5)) w hu gs
        { bits := [], state := .READ_TRIG_OR_END,
          addr := aF.foldl (fun a f => (a <<< 8) ||| frameVal f) 0,
          addr_start := frameSS (aF.getD 0 mfDefault),
          addr_bytes_remaining := 0, is_read := true, errors := 0 }
        (lastRiseAfter
          (lastRiseAfter
            (lastRiseAfter (lastRiseAfter none sf.pulses)
              (aF.map MFrame.pulses).flatten) rf.pulses) g1.pulses)
        rfl rfl rfl hgs
      rw [semAnns_append, semAnns_append, hg2, hg1,
        eTail_run (sr / ((br : ℚ) * 5)) w hu
          { bits := [], state := .READ_TRIG_OR_END,
            addr := aF.foldl (fun a f => (a <<< 8) ||| frameVal f) 0,
            addr_start := frameSS (aF.getD 0 mfDefault),
            addr_bytes_remaining := 0, is_read := true, errors := 0 }
          tl rfl rfl rfl hwtl _]
      simp [semAnns_append, semAnns_zip_bitAnns, semAnns_zip_bitAnns0,
        semAnns_cons, semAnns_nil,
        isSemAnn, dataSAnnOf, endAnnOfTail, ANN_BIT, ANN_CMD_BIT,
        ANN_TRIG, ANN_BYTE, ANN_START, ANN_ADDR, ANN_RW, ANN_DATA_M,
        ANN_DATA_S, ANN_END, ANN_ERROR]

theorem swire_C1_witness :
    ((0 : ℚ) < 50) ∧ (0 < 2) ∧
    (∃ out,
        decode (some 50) 2 2
            (sfW.pulses ++ ([a1W, a2W].map MFrame.pulses).flatten ++
              rfW.pulses ++ ([d1W].map MFrame.pulses).flatten ++
              efW.pulses) =
          .ok out ∧
        semAnns out =
          [startAnnOf ((50 : ℚ) / (((2 : ℕ) : ℚ) * 5)) sfW,
           addrAnnOf ((50 : ℚ) / (((2 : ℕ) : ℚ) * 5)) 2
             ([a1W, a2W].getD 0 mfDefault) ([a1W, a2W].getD (2 - 1) mfDefault)
             ([a1W, a2W].foldl (fun a f => (a <<< 8) ||| frameVal f) 0),
           rwAnnOf ((50 : ℚ) / (((2 : ℕ) : ℚ) * 5)) rfW] ++
            [d1W].map (dataMAnnOf ((50 : ℚ) / (((2 : ℕ) : ℚ) * 5))) ++
            [endAnnOf ((50 : ℚ) / (((2 : ℕ) : ℚ) * 5)) efW]) ∧
    (∃ out,
        decode (some 50) 2 2
            (sfW.pulses ++ ([a1W, a2W].map MFrame.pulses).flatten ++
              rfR.pulses ++ g1R.pulses ++
              (([] : List RGroup).map RGroup.pulses).flatten ++
              tlR.pulses) =
          .ok out ∧
        semAnns out =
          [startAnnOf ((50 : ℚ) / (((2 : ℕ) : ℚ) * 5)) sfW,
           addrAnnOf ((50 : ℚ) / (((2 : ℕ) : ℚ) * 5)) 2
             ([a1W, a2W].getD 0 mfDefault) ([a1W, a2W].getD (2 - 1) mfDefault)
             ([a1W, a2W].foldl (fun a f => (a <<< 8) ||| frameVal f) 0),
           rwAnnOf ((50 : ℚ) / (((2 : ℕ) : ℚ) * 5)) rfR] ++
            (g1R :: ([] : List RGroup)).map
              (dataSAnnOf ((50 : ℚ) / (((2 : ℕ) : ℚ) * 5))) ++
            [endAnnOfTail ((50 : ℚ) / (((2 : ℕ) : ℚ) * 5)) tlR]) := by
  refine ⟨by norm_num, by norm_num, ?_, ?_⟩
  · exact swire_C1.1 50 2 2 sfW rfW efW [a1W, a2W] [d1W]
      (by norm_num) (by norm_num) (Or.inl rfl)
      (by norm_num [wfMFrame, sfW, pulsesMatch, bitPulse, validLow0,
        validLow1, lowT, validAnyP, innerChain, chainFrom])
      rfl rfl rfl
      (by
        intro f hf
        simp only [List.mem_cons, List.not_mem_nil, or_false] at hf
        rcases hf with rfl | rfl <;>
          exact ⟨by norm_num [wfMFrame, a1W, a2W, pulsesMatch, bitPulse,
            validLow0, validLow1, lowT, validAnyP, innerChain, chainFrom],
            rfl⟩)
      (by norm_num [wfMFrame, rfW, pulsesMatch, bitPulse, validLow0,
        validLow1, lowT, validAnyP, innerChain, chainFrom])
      rfl (by decide)
      (by
        intro f hf
        simp only [List.mem_cons, List.not_mem_nil, or_false] at hf
        rcases hf with rfl
        exact ⟨by norm_num [wfMFrame, d1W, pulsesMatch, bitPulse,
          validLow0, validLow1, lowT, validAnyP, innerChain, chainFrom],
          rfl⟩)
      (by norm_num [wfMFrame, efW, pulsesMatch, bitPulse, validLow0,
        validLow1, lowT, validAnyP, innerChain, chainFrom])
      rfl rfl
  · exact swire_C1.2 50 2 2 sfW rfR [a1W, a2W] g1R [] tlR
      (by norm_num) (by norm_num) (Or.inl rfl)
      (by norm_num [wfMFrame, sfW, pulsesMatch, bitPulse, validLow0,
        validLow1, lowT, validAnyP, innerChain, chainFrom])
      rfl rfl rfl
      (by
        intro f hf
        simp only [List.mem_cons, List.not_mem_nil, or_false] at hf
        rcases hf with rfl | rfl <;>
          exact ⟨by norm_num [wfMFrame, a1W, a2W, pulsesMatch, bitPulse,
            validLow0, validLow1, lowT, validAnyP, innerChain, chainFrom],
            rfl⟩)
      (by norm_num [wfMFrame, rfR, pulsesMatch, bitPulse, validLow0,
        validLow1, lowT, validAnyP, innerChain, chainFrom])
      rfl (by decide)
      (by norm_num [wfRGroup, g1R, pulsesMatch, bitPulse, validLow0,
        validLow1, lowT, validAnyP, innerChain, chainFrom])
      (by intro g hg; exact absurd hg (List.not_mem_nil g))
      (by
        norm_num [wfETail, tlR, pulsesMatch, bitPulse, validLow0,
          validLow1, lowT, validAnyP, innerChain, chainFrom, bitFold,
          byteFold]
        decide)

lemma filter_addr_eq (l : List Ann) :
    l.filter (fun a => a.idx == ANN_ADDR) =
      (semAnns l).filter (fun a => a.idx == ANN_ADDR) := by
  induction l with
  | nil => rfl
  | cons a l ih =>
    simp only [semAnns, List.filter_cons] at ih ⊢
    by_cases h : (a.idx == ANN_ADDR) = true
    · have ha : a.idx = ANN_ADDR := by simpa using h
      have hs : isSemAnn a = true := by
        simp [isSemAnn, ha, ANN_START, ANN_ADDR, ANN_RW, ANN_DATA_M,
          ANN_DATA_S, ANN_END, ANN_ERROR]
      simp [h, hs, ih]
    · by_cases hs : isSemAnn a = true <;> simp [h, hs, ih]

lemma pyHex_length (d v : Nat) : 2 + d ≤ (pyHex d v).length := by
  simp only [pyHex]
  have h1 : ("0x" ++ String.mk (List.replicate
      (d - ((Nat.toDigits 16 v).map Char.toUpper).length) '0' ++
      (Nat.toDigits 16 v).map Char.toUpper)).length =
      2 + ((d - ((Nat.toDigits 16 v).map Char.toUpper).length) +
        ((Nat.toDigits 16 v).map Char.toUpper).length) := by
    simp [String.length_append]
    rfl
  rw [h1]
  omega

/-- C5: from the first-address-byte state reached after START (width `w`
address bytes pending), running the `w` address frames accumulates the
address big-endian (most significant byte first), emits exactly one
address annotation among all annotations of the phase, spanning from the
first address frame's start sample to the last one's end sample, with the
value formatted zero-padded to `2 w` hex digits; the fold gives 0x123456
for width 3 and byte values 0x12, 0x34, 0x56 and 0xABCD for width 2 and
values 0xAB, 0xCD, rendered as "0x123456" and "0xABCD". -/
theorem swire_C5 :
    (∀ (u : ℚ) (w : Nat) (s : DState) (aF : List MFrame) (lr : Option Int),
      0 < u → (w = 2 ∨ w = 3) → s.state = .ADDR_0 → s.bits = [] →
      s.errors = 0 → s.addr_bytes_remaining = (w : Int) → aF.length = w →
      (∀ f ∈ aF, wfMFrame u f ∧ frameCmd f = 0) →
      (runPulses u w s lr (aF.map MFrame.pulses).flatten).1.addr =
        aF.foldl (fun a f => (a <<< 8) ||| frameVal f) 0 ∧
      (runPulses u w s lr (aF.map MFrame.pulses).flatten).2.filter
          (fun a => a.idx == ANN_ADDR) =
        [⟨frameSS (aF.getD 0 mfDefault), frameES u (aF.getD (w - 1) mfDefault),
          ANN_ADDR,
          ["ADDR: " ++
             pyHex (w * 2) (aF.foldl (fun a f => (a <<< 8) ||| frameVal f) 0),
           pyHex (w * 2)
             (aF.foldl (fun a f => (a <<< 8) ||| frameVal f) 0)]⟩]) ∧
    (∀ w v : Nat, 2 + w * 2 ≤ (pyHex (w * 2) v).length) ∧
    (∀ f1 f2 f3 : MFrame, frameVal f1 = 0x12 → frameVal f2 = 0x34 →
      frameVal f3 = 0x56 →
      [f1, f2, f3].foldl (fun a f => (a <<< 8) ||| frameVal f) 0 =
        0x123456) ∧
    (∀ f1 f2 : MFrame, frameVal f1 = 0xAB → frameVal f2 = 0xCD →
      [f1, f2].foldl (fun a f => (a <<< 8) ||| frameVal f) 0 = 0xABCD) ∧
    pyHex 6 0x123456 = "0x123456" ∧ pyHex 4 0xABCD = "0xABCD" := by
  refine ⟨?_, ?_, ?_, ?_, by decide, by decide⟩
  · intro u w s aF lr hu hw hst hb he hrem haL haF
    obtain ⟨h1, h2⟩ := addrFrames_run u w hu s aF hw hst hb he hrem haL
      haF lr
    refine ⟨by rw [h1], ?_⟩
    rw [filter_addr_eq, h2]
    simp [addrAnnOf, ANN_ADDR]
  · intro w v
    exact pyHex_length (w * 2) v
  · intro f1 f2 f3 h1 h2 h3
    simp [h1, h2, h3]
  · intro f1 f2 h1 h2
    simp [h1, h2]

theorem swire_C5_witness :
    ((0 : ℚ) < 5) ∧
    ((runPulses 5 2
        { initState with state := .ADDR_0, addr_bytes_remaining := 2 }
        (some 230) ([a1W, a2W].map MFrame.pulses).flatten).1.addr =
      [a1W, a2W].foldl (fun a f => (a <<< 8) ||| frameVal f) 0 ∧
     (runPulses 5 2
        { initState with state := .ADDR_0, addr_bytes_remaining := 2 }
        (some 230) ([a1W, a2W].map MFrame.pulses).flatten).2.filter
          (fun a => a.idx == ANN_ADDR) =
      [⟨frameSS ([a1W, a2W].getD 0 mfDefault),
        frameES 5 ([a1W, a2W].getD (2 - 1) mfDefault), ANN_ADDR,
        ["ADDR: " ++
           pyHex (2 * 2)
             ([a1W, a2W].foldl (fun a f => (a <<< 8) ||| frameVal f) 0),
         pyHex (2 * 2)
           ([a1W, a2W].foldl (fun a f => (a <<< 8) ||| frameVal f) 0)]⟩]) ∧
    [a1W, a2W, mk56].foldl (fun a f => (a <<< 8) ||| frameVal f) 0 =
      0x123456 ∧
    [d1W, mkCD].foldl (fun a f => (a <<< 8) ||| frameVal f) 0 = 0xABCD := by
  refine ⟨by norm_num, ?_, ?_, ?_⟩
  · exact swire_C5.1 5 2
      { initState with state := .ADDR_0, addr_bytes_remaining := 2 }
      [a1W, a2W] (some 230) (by norm_num) (Or.inl rfl) rfl rfl rfl
      (by decide) rfl
      (by
        intro f hf
        simp only [List.mem_cons, List.not_mem_nil, or_false] at hf
        rcases hf with rfl | rfl <;>
          exact ⟨by norm_num [wfMFrame, a1W, a2W, pulsesMatch, bitPulse,
            validLow0, validLow1, lowT, validAnyP, innerChain, chainFrom],
            rfl⟩)
  · exact swire_C5.2.2.1 a1W a2W mk56 rfl rfl rfl
  · exact swire_C5.2.2.2.1 d1W mkCD rfl rfl

/-- C6: counterexample to the claim's final clause.  In the read path, a
bit-1 pulse in trigger-or-end state starts a 9-bit master frame; the claim
says a completed byte other than cmd 1 / value 0xFF yields an
invalid-command error.  But a completed byte of cmd 1 / value 0x5A (START)
yields no invalid-command ("BAD CMD") error: it emits an unexpected-START
error together with a START event and resets into first-address-byte
state. -/
theorem swire_C6_counterexample :
    (decode_byte 3 dStartState).2.1.countP
        (fun a => a.labels.getD 1 "" == "BAD CMD") = 0 ∧
    (decode_byte 3 dStartState).2.1.countP
        (fun a => a.idx == ANN_ERROR) = 1 ∧
    (decode_byte 3 dStartState).2.1.countP
        (fun a => a.idx == ANN_START) = 1 ∧
    (decode_byte 3 dStartState).1.state = .ADDR_0 := by
  decide

/-- C6 (amended): the read-path alternation.  In read-trigger state any
valid pulse emits one Trigger event (whatever its bit value) and enters
read-data state; the eighth accumulated slave bit emits exactly one
slave-byte event (MSB-first value, spanning the first bit's start sample
to the eighth bit's end sample) and enters slave-end state; in slave-end
state the next valid pulse is consumed with no event; in trigger-or-end
state a bit-1 pulse is appended as a CMD bit and starts a 9-bit master
frame while a bit-0 pulse emits another Trigger event and returns to
read-data state; a completed master byte of cmd 1 / value 0xFF produces
the End event, a completed cmd 1 byte with any value other than 0xFF and
0x5A produces an invalid-command error, and a completed cmd 1 / value
0x5A byte produces the unexpected-START resynchronization instead. -/
theorem swire_C6_amended :
    (∀ (u : ℚ) (w : Nat) (s : DState) (fall rise : Int) (b : Nat),
      s.state = .READ_TRIG →
      classifyLow u ((rise - fall : Int) : ℚ) = some b →
      classifyStep u w s fall rise =
        ({ s with errors := 0, state := .READ_DATA },
         [⟨fall, rise, ANN_TRIG, ["Trigger", "T", ">"]⟩])) ∧
    (∀ (u : ℚ) (w : Nat) (s : DState) (fall rise : Int) (b : Nat),
      s.state = .READ_DATA → s.bits.length = 7 →
      classifyLow u ((rise - fall : Int) : ℚ) = some b →
      classifyStep u w s fall rise =
        ({ s with errors := 0, bits := [], state := .SLAVE_END },
         [⟨fall, bitEnd u fall, ANN_BIT, [toString b]⟩,
          ⟨((s.bits ++ [(b, fall, bitEnd u fall)]).getD 0 d0).2.1,
           ((s.bits ++ [(b, fall, bitEnd u fall)]).getD 7 d0).2.2, ANN_BYTE,
           [pyHex 2 (byteFold ((s.bits ++ [(b, fall, bitEnd u fall)]).take 8))]⟩,
          ⟨((s.bits ++ [(b, fall, bitEnd u fall)]).getD 0 d0).2.1,
           ((s.bits ++ [(b, fall, bitEnd u fall)]).getD 7 d0).2.2, ANN_DATA_S,
           [pyHex 2 (byteFold ((s.bits ++ [(b, fall, bitEnd u fall)]).take 8))]⟩])) ∧
    (∀ (u : ℚ) (w : Nat) (s : DState) (fall rise : Int) (b : Nat),
      s.state = .SLAVE_END →
      classifyLow u ((rise - fall : Int) : ℚ) = some b →
      classifyStep u w s fall rise =
        ({ s with errors := 0, state := .READ_TRIG_OR_END }, [])) ∧
    (∀ (u : ℚ) (w : Nat) (s : DState) (fall rise : Int),
      s.state = .READ_TRIG_OR_END →
      classifyLow u ((rise - fall : Int) : ℚ) = some 1 →
      classifyStep u w s fall rise =
        ({ s with
            errors := 0, bits := s.bits ++ [(1, fall, bitEnd u fall)],
            state := .DATA },
         [⟨fall, bitEnd u fall, ANN_CMD_BIT, [toString 1]⟩])) ∧
    (∀ (u : ℚ) (w : Nat) (s : DState) (fall rise : Int),
      s.state = .READ_TRIG_OR_END →
      classifyLow u ((rise - fall : Int) : ℚ) = some 0 →
      classifyStep u w s fall rise =
        ({ s with errors := 0, state := .READ_DATA },
         [⟨fall, rise, ANN_TRIG, ["Trigger", "T", ">"]⟩])) ∧
    (∀ (w : Nat) (s : DState), s.bits.length = 9 →
      (s.bits.getD 0 d0).1 = 1 →
      byteFold ((s.bits.drop 1).take 8) = 0xFF →
      decode_byte w s =
        ({ s with state := .IDLE, is_read := false, bits := [] },
         [⟨(s.bits.getD 0 d0).2.1, (s.bits.getD 8 d0).2.2, ANN_BYTE,
           [pyHex 2 0xFF]⟩,
          ⟨(s.bits.getD 0 d0).2.1, (s.bits.getD 8 d0).2.2, ANN_END,
           ["END", "E"]⟩],
         true)) ∧
    (∀ (w : Nat) (s : DState), s.bits.length = 9 →
      (s.bits.getD 0 d0).1 = 1 →
      byteFold ((s.bits.drop 1).take 8) ≠ 0x5A →
      byteFold ((s.bits.drop 1).take 8) ≠ 0xFF →
      decode_byte w s =
        ({ s with state := .IDLE, is_read := false, bits := [] },
         [⟨(s.bits.getD 0 d0).2.1, (s.bits.getD 8 d0).2.2, ANN_BYTE,
           [pyHex 2 (byteFold ((s.bits.drop 1).take 8))]⟩,
          ⟨(s.bits.getD 0 d0).2.1, (s.bits.getD 8 d0).2.2, ANN_ERROR,
           ["Invalid CMD: " ++ pyHex 2 (byteFold ((s.bits.drop 1).take 8)),
            "BAD CMD"]⟩],
         true)) ∧
    (∀ (w : Nat) (s : DState), s.bits.length = 9 →
      (s.bits.getD 0 d0).1 = 1 →
      byteFold ((s.bits.drop 1).take 8) = 0x5A →
      decode_byte w s =
        ({ s with
            state := .ADDR_0, addr_bytes_remaining := (w : Int), addr := 0,
            bits := [], errors := 0 },
         (if s.state ≠ St.IDLE then
            [⟨(s.bits.getD 0 d0).2.1, (s.bits.getD 8 d0).2.2, ANN_ERROR,
              ["Unexpected START", "RESYNC"]⟩]
          else []) ++
           [⟨(s.bits.getD 0 d0).2.1, (s.bits.getD 8 d0).2.2, ANN_BYTE,
             [pyHex 2 0x5A]⟩,
            ⟨(s.bits.getD 0 d0).2.1, (s.bits.getD 8 d0).2.2, ANN_START,
             ["START", "S"]⟩],
         true)) := by
  refine ⟨?_, ?_, ?_, ?_, ?_, ?_, ?_, ?_⟩
  · intro u w s fall rise b hst h
    exact classifyStep_readTrig u w s fall rise b hst h
  · intro u w s fall rise b hst hlen h
    exact classifyStep_readData_byte u w s fall rise b hst hlen h
  · intro u w s fall rise b hst h
    exact classifyStep_slaveEnd u w s fall rise b hst h
  · intro u w s fall rise hst h
    exact classifyStep_trigOrEnd1 u w s fall rise hst h
  · intro u w s fall rise hst h
    exact classifyStep_trigOrEnd0 u w s fall rise hst h
  · intro w s hlen h1 h2
    exact decode_byte_END w s hlen h1 h2
  · intro w s hlen h1 h2 h3
    exact decode_byte_invalid w s hlen h1 h2 h3
  · intro w s hlen h1 h2
    exact decode_byte_START w s hlen h1 h2

theorem swire_C6_amended_witness :
    (classifyStep 5 3 { initState with state := .READ_TRIG } 0 5 =
      ({ ({ initState with state := .READ_TRIG } : DState) with
          errors := 0, state := .READ_DATA },
       [⟨0, 5, ANN_TRIG, ["Trigger", "T", ">"]⟩])) ∧
    (classifyStep 5 3 rdState7 175 180 =
      ({ rdState7 with errors := 0, bits := [], state := .SLAVE_END },
       [⟨175, bitEnd 5 175, ANN_BIT, [toString 0]⟩,
        ⟨((rdState7.bits ++ [(0, 175, bitEnd 5 175)]).getD 0 d0).2.1,
         ((rdState7.bits ++ [(0, 175, bitEnd 5 175)]).getD 7 d0).2.2,
         ANN_BYTE,
         [pyHex 2
           (byteFold ((rdState7.bits ++ [(0, 175, bitEnd 5 175)]).take 8))]⟩,
        ⟨((rdState7.bits ++ [(0, 175, bitEnd 5 175)]).getD 0 d0).2.1,
         ((rdState7.bits ++ [(0, 175, bitEnd 5 175)]).getD 7 d0).2.2,
         ANN_DATA_S,
         [pyHex 2
           (byteFold ((rdState7.bits ++ [(0, 175, bitEnd 5 175)]).take 8))]⟩])) ∧
    (classifyStep 5 3 { initState with state := .SLAVE_END, is_read := true }
        0 5 =
      ({ ({ initState with state := .SLAVE_END, is_read := true } : DState) with
          errors := 0, state := .READ_TRIG_OR_END }, [])) ∧
    (classifyStep 5 3
        { initState with state := .READ_TRIG_OR_END, is_read := true } 0 20 =
      ({ ({ initState with state := .READ_TRIG_OR_END, is_read := true } :
            DState) with
          errors := 0,
          bits := ({ initState with
              state := .READ_TRIG_OR_END, is_read := true } : DState).bits ++
            [(1, 0, bitEnd 5 0)],
          state := .DATA },
       [⟨0, bitEnd 5 0, ANN_CMD_BIT, [toString 1]⟩])) ∧
    (classifyStep 5 3
        { initState with state := .READ_TRIG_OR_END, is_read := true } 0 5 =
      ({ ({ initState with state := .READ_TRIG_OR_END, is_read := true } :
            DState) with
          errors := 0, state := .READ_DATA },
       [⟨0, 5, ANN_TRIG, ["Trigger", "T", ">"]⟩])) ∧
    (decode_byte 3 dEndState =
      ({ dEndState with state := .IDLE, is_read := false, bits := [] },
       [⟨(dEndState.bits.getD 0 d0).2.1, (dEndState.bits.getD 8 d0).2.2,
         ANN_BYTE, [pyHex 2 0xFF]⟩,
        ⟨(dEndState.bits.getD 0 d0).2.1, (dEndState.bits.getD 8 d0).2.2,
         ANN_END, ["END", "E"]⟩],
       true)) ∧
    (decode_byte 3 dBadState =
      ({ dBadState with state := .IDLE, is_read := false, bits := [] },
       [⟨(dBadState.bits.getD 0 d0).2.1, (dBadState.bits.getD 8 d0).2.2,
         ANN_BYTE, [pyHex 2 (byteFold ((dBadState.bits.drop 1).take 8))]⟩,
        ⟨(dBadState.bits.getD 0 d0).2.1, (dBadState.bits.getD 8 d0).2.2,
         ANN_ERROR,
         ["Invalid CMD: " ++ pyHex 2 (byteFold ((dBadState.bits.drop 1).take 8)),
          "BAD CMD"]⟩],
       true)) ∧
    (decode_byte 3 dStartState =
      ({ dStartState with
          state := .ADDR_0, addr_bytes_remaining := ((3 : Nat) : Int),
          addr := 0, bits := [], errors := 0 },
       (if dStartState.state ≠ St.IDLE then
          [⟨(dStartState.bits.getD 0 d0).2.1, (dStartState.bits.getD 8 d0).2.2,
            ANN_ERROR, ["Unexpected START", "RESYNC"]⟩]
        else []) ++
         [⟨(dStartState.bits.getD 0 d0).2.1, (dStartState.bits.getD 8 d0).2.2,
           ANN_BYTE, [pyHex 2 0x5A]⟩,
          ⟨(dStartState.bits.getD 0 d0).2.1, (dStartState.bits.getD 8 d0).2.2,
           ANN_START, ["START", "S"]⟩],
       true)) := by
  refine ⟨?_, ?_, ?_, ?_, ?_, ?_, ?_, ?_⟩
  · exact swire_C6_amended.1 5 3 { initState with state := .READ_TRIG } 0 5 0
      rfl (classifyLow_of_valid0 5 _ (by norm_num) (by norm_num [validLow0]))
  · exact swire_C6_amended.2.1 5 3 rdState7 175 180 0 rfl rfl
      (classifyLow_of_valid0 5 _ (by norm_num) (by norm_num [validLow0]))
  · exact swire_C6_amended.2.2.1 5 3
      { initState with state := .SLAVE_END, is_read := true } 0 5 0 rfl
      (classifyLow_of_valid0 5 _ (by norm_num) (by norm_num [validLow0]))
  · exact swire_C6_amended.2.2.2.1 5 3
      { initState with state := .READ_TRIG_OR_END, is_read := true } 0 20 rfl
      (classifyLow_of_valid1 5 _ (by norm_num) (by norm_num [validLow1]))
  · exact swire_C6_amended.2.2.2.2.1 5 3
      { initState with state := .READ_TRIG_OR_END, is_read := true } 0 5 rfl
      (classifyLow_of_valid0 5 _ (by norm_num) (by norm_num [validLow0]))
  · exact swire_C6_amended.2.2.2.2.2.1 3 dEndState rfl rfl (by decide)
  · exact swire_C6_amended.2.2.2.2.2.2.1 3 dBadState rfl rfl (by decide)
      (by decide)
  · exact swire_C6_amended.2.2.2.2.2.2.2 3 dStartState rfl rfl (by decide)

/-- C4: whenever a completed 9-bit master byte decodes as START (cmd 1,
value 0x5A), from any state: if the prior state was not Idle an
unexpected-START error event is emitted first; the machine then enters
first-address-byte state with the address accumulator zero, bytes
remaining reset to the configured width, and the bit buffer and error
counter cleared.  Observational equivalence of decoder states (equality on
every field that can influence future annotations) is preserved by the
whole decode loop with identical annotation output, and two decoders
completing the same START byte from arbitrarily different prior
transaction states (buffered state, address, direction, error count)
produce identical annotation streams for the entire rest of the input, so
the discarded transaction data never appears in any subsequent event. -/
theorem swire_C4 :
    (∀ (w : Nat) (s : DState), s.bits.length = 9 →
      (s.bits.getD 0 d0).1 = 1 → byteFold ((s.bits.drop 1).take 8) = 0x5A →
      decode_byte w s =
        ({ s with
            state := .ADDR_0, addr_bytes_remaining := (w : Int),
            addr := 0, bits := [], errors := 0 },
         (if s.state ≠ St.IDLE then
            [⟨(s.bits.getD 0 d0).2.1, (s.bits.getD 8 d0).2.2, ANN_ERROR,
              ["Unexpected START", "RESYNC"]⟩]
          else []) ++
           [⟨(s.bits.getD 0 d0).2.1, (s.bits.getD 8 d0).2.2, ANN_BYTE,
             [pyHex 2 0x5A]⟩,
            ⟨(s.bits.getD 0 d0).2.1, (s.bits.getD 8 d0).2.2, ANN_START,
             ["START", "S"]⟩],
         true)) ∧
    (∀ (u : ℚ) (w : Nat) (ps : List (Int × Int)) (s t : DState)
        (lr : Option Int), obsEq s t →
      (runPulses u w s lr ps).2 = (runPulses u w t lr ps).2 ∧
        obsEq (runPulses u w s lr ps).1 (runPulses u w t lr ps).1) ∧
    (∀ (u : ℚ) (w : Nat) (s t : DState) (lr : Option Int)
        (ps : List (Int × Int)),
      s.bits = t.bits → s.bits.length = 9 → (s.bits.getD 0 d0).1 = 1 →
      byteFold ((s.bits.drop 1).take 8) = 0x5A →
      (runPulses u w (decode_byte w s).1 lr ps).2 =
        (runPulses u w (decode_byte w t).1 lr ps).2) := by
  refine ⟨?_, ?_, ?_⟩
  · intro w s hlen hc h5
    exact decode_byte_START w s hlen hc h5
  · intro u w ps s t lr h
    exact runPulses_obsEq u w ps s t lr h
  · intro u w s t lr ps hb hlen hc h5
    have hS := congrArg Prod.fst (decode_byte_START w s hlen hc h5)
    have hT := congrArg Prod.fst (decode_byte_START w t
      (by rw [← hb]; exact hlen) (by rw [← hb]; exact hc)
      (by rw [← hb]; exact h5))
    refine (runPulses_obsEq u w ps (decode_byte w s).1 (decode_byte w t).1
      lr ?_).1
    rw [hS, hT]
    exact ⟨rfl, rfl, rfl, rfl, rfl, fun hn => nomatch hn⟩

theorem swire_C4_witness :
    (decode_byte 3 rwStartState =
      ({ rwStartState with
          state := .ADDR_0, addr_bytes_remaining := ((3 : Nat) : Int),
          addr := 0, bits := [], errors := 0 },
       (if rwStartState.state ≠ St.IDLE then
          [⟨(rwStartState.bits.getD 0 d0).2.1,
            (rwStartState.bits.getD 8 d0).2.2, ANN_ERROR,
            ["Unexpected START", "RESYNC"]⟩]
        else []) ++
         [⟨(rwStartState.bits.getD 0 d0).2.1,
           (rwStartState.bits.getD 8 d0).2.2, ANN_BYTE, [pyHex 2 0x5A]⟩,
          ⟨(rwStartState.bits.getD 0 d0).2.1,
           (rwStartState.bits.getD 8 d0).2.2, ANN_START, ["START", "S"]⟩],
       true)) ∧
    ((runPulses 5 3 obsA none [(0, 5), (25, 30)]).2 =
        (runPulses 5 3 obsB none [(0, 5), (25, 30)]).2 ∧
      obsEq (runPulses 5 3 obsA none [(0, 5), (25, 30)]).1
        (runPulses 5 3 obsB none [(0, 5), (25, 30)]).1) ∧
    (runPulses 5 3 (decode_byte 3 dStartState).1 (some 230) [(250, 255)]).2 =
      (runPulses 5 3 (decode_byte 3 junkStartState).1 (some 230)
        [(250, 255)]).2 := by
  refine ⟨?_, ?_, ?_⟩
  · exact swire_C4.1 3 rwStartState rfl rfl (by decide)
  · exact swire_C4.2.1 5 3 [(0, 5), (25, 30)] obsA obsB none
      ⟨rfl, rfl, rfl, rfl, rfl, fun hn => nomatch hn⟩
  · exact swire_C4.2.2 5 3 dStartState junkStartState (some 230)
      [(250, 255)] rfl rfl rfl (by decide)

/-- C2: with unit time `u = sample_rate / (bit_rate * 5)`, a low pulse is
classified as bit 0 exactly on the window `0.5u ≤ low_time ≤ 1.5u`, as bit 1
exactly on `3.5u ≤ low_time ≤ 4.5u`, and as a timing error exactly outside
both windows; in particular `1.0u` gives bit 0, `4.0u` gives bit 1, and
`2.0u` and `6.0u` give timing errors, the `2.5u` midpoint never overriding
the two explicit ranges. -/
theorem swire_C2 (sr br : ℚ) (hsr : 0 < sr) (hbr : 0 < br) :
    (∀ lt : ℚ,
        (classifyLow (sr / (br * 5)) lt = some 0 ↔
          sr / (br * 5) * 0.5 ≤ lt ∧ lt ≤ sr / (br * 5) * 1.5) ∧
        (classifyLow (sr / (br * 5)) lt = some 1 ↔
          sr / (br * 5) * 3.5 ≤ lt ∧ lt ≤ sr / (br * 5) * 4.5) ∧
        (classifyLow (sr / (br * 5)) lt = none ↔
          ¬ (sr / (br * 5) * 0.5 ≤ lt ∧ lt ≤ sr / (br * 5) * 1.5) ∧
            ¬ (sr / (br * 5) * 3.5 ≤ lt ∧ lt ≤ sr / (br * 5) * 4.5))) ∧
    classifyLow (sr / (br * 5)) (sr / (br * 5) * 1) = some 0 ∧
    classifyLow (sr / (br * 5)) (sr / (br * 5) * 4) = some 1 ∧
    classifyLow (sr / (br * 5)) (sr / (br * 5) * 2) = none ∧
    classifyLow (sr / (br * 5)) (sr / (br * 5) * 6) = none := by
  have hu : 0 < sr / (br * 5) := div_pos hsr (by linarith)
  refine ⟨fun lt => ⟨?_, ?_, ?_⟩, ?_, ?_, ?_, ?_⟩
  · exact classifyLow_some_iff0 (sr / (br * 5)) lt hu
  · exact classifyLow_some_iff1 (sr / (br * 5)) lt hu
  · exact classifyLow_none_iff (sr / (br * 5)) lt
  · exact classifyLow_of_valid0 _ _ hu ⟨by nlinarith, by nlinarith⟩
  · exact classifyLow_of_valid1 _ _ hu ⟨by nlinarith, by nlinarith⟩
  · exact classifyLow_of_invalid _ _
      (fun hv => by rcases hv with ⟨-, h2⟩; nlinarith)
      (fun hv => by rcases hv with ⟨h1, -⟩; nlinarith)
  · exact classifyLow_of_invalid _ _
      (fun hv => by rcases hv with ⟨-, h2⟩; nlinarith)
      (fun hv => by rcases hv with ⟨-, h2⟩; nlinarith)

theorem swire_C2_witness :
    ((0 : ℚ) < 50) ∧ ((0 : ℚ) < 2) ∧
      ((∀ lt : ℚ,
          (classifyLow ((50 : ℚ) / (2 * 5)) lt = some 0 ↔
            (50 : ℚ) / (2 * 5) * 0.5 ≤ lt ∧ lt ≤ (50 : ℚ) / (2 * 5) * 1.5) ∧
          (classifyLow ((50 : ℚ) / (2 * 5)) lt = some 1 ↔
            (50 : ℚ) / (2 * 5) * 3.5 ≤ lt ∧ lt ≤ (50 : ℚ) / (2 * 5) * 4.5) ∧
          (classifyLow ((50 : ℚ) / (2 * 5)) lt = none ↔
            ¬ ((50 : ℚ) / (2 * 5) * 0.5 ≤ lt ∧ lt ≤ (50 : ℚ) / (2 * 5) * 1.5) ∧
              ¬ ((50 : ℚ) / (2 * 5) * 3.5 ≤ lt ∧
                  lt ≤ (50 : ℚ) / (2 * 5) * 4.5))) ∧
        classifyLow ((50 : ℚ) / (2 * 5)) ((50 : ℚ) / (2 * 5) * 1) = some 0 ∧
        classifyLow ((50 : ℚ) / (2 * 5)) ((50 : ℚ) / (2 * 5) * 4) = some 1 ∧
        classifyLow ((50 : ℚ) / (2 * 5)) ((50 : ℚ) / (2 * 5) * 2) = none ∧
        classifyLow ((50 : ℚ) / (2 * 5)) ((50 : ℚ) / (2 * 5) * 6) = none) :=
  ⟨by norm_num, by norm_num, swire_C2 50 2 (by norm_num) (by norm_num)⟩

/-- C7: on a falling edge with a previous rise `lr`, if the decoder is
in-frame and the gap `fall - lr` exceeds `10u`, exactly one framing-error
event is emitted and a full resynchronization (bit buffer, error counter
and direction cleared, state Idle) happens before the new pulse is
classified; if the decoder is not in-frame or the gap is at most `10u`, no
framing-error event is emitted and the pulse is classified from the
unchanged state. -/
theorem swire_C7 (u : ℚ) (w : Nat) (s : DState) (lr fall rise : Int) :
    (0 < lr → inFrame s → ((fall - lr : Int) : ℚ) > u * 10 →
      processPulse u w s (some lr) (fall, rise) =
        ((classifyStep u w (resync s) fall rise).1,
         ⟨lr, fall, ANN_ERROR, ["Frame gap", "GAP"]⟩ ::
           (classifyStep u w (resync s) fall rise).2) ∧
      resync s =
        { s with bits := [], errors := 0, state := .IDLE, is_read := false } ∧
      (processPulse u w s (some lr) (fall, rise)).2.countP isGapAnn = 1) ∧
    (¬ inFrame s ∨ ((fall - lr : Int) : ℚ) ≤ u * 10 →
      processPulse u w s (some lr) (fall, rise) =
        classifyStep u w s fall rise ∧
      (processPulse u w s (some lr) (fall, rise)).2.countP isGapAnn = 0) := by
  constructor
  · intro h0 hin hg
    have hfire := gapCheck_fire u s lr fall (by omega) hin hg
    have hpp : processPulse u w s (some lr) (fall, rise) =
        ((classifyStep u w (resync s) fall rise).1,
         ⟨lr, fall, ANN_ERROR, ["Frame gap", "GAP"]⟩ ::
           (classifyStep u w (resync s) fall rise).2) := by
      simp only [processPulse, hfire, List.singleton_append]
    refine ⟨hpp, rfl, ?_⟩
    rw [hpp]
    simp only [List.countP_cons, countP_gap_classify]
    rfl
  · intro h
    have hnof : gapCheck u s (some lr) fall = (s, []) := by
      apply gapCheck_noFire
      rintro ⟨-, hin, hgt⟩
      rcases h with h | h
      · exact h hin
      · exact absurd hgt (not_lt.mpr h)
    refine ⟨processPulse_of_gapCheck u w s (some lr) (fall, rise) hnof, ?_⟩
    rw [processPulse_of_gapCheck u w s (some lr) (fall, rise) hnof]
    exact countP_gap_classify u w s fall rise

theorem swire_C7_witness :
    (processPulse 5 3 { initState with bits := [(0, 0, 25)], state := .DATA }
        (some 5) (600, 605) =
      ((classifyStep 5 3
          (resync { initState with bits := [(0, 0, 25)], state := .DATA })
          600 605).1,
       ⟨5, 600, ANN_ERROR, ["Frame gap", "GAP"]⟩ ::
         (classifyStep 5 3
           (resync { initState with bits := [(0, 0, 25)], state := .DATA })
           600 605).2) ∧
      resync { initState with bits := [(0, 0, 25)], state := .DATA } =
        { ({ initState with bits := [(0, 0, 25)], state := .DATA } : DState) with
            bits := [], errors := 0, state := .IDLE, is_read := false } ∧
      (processPulse 5 3 { initState with bits := [(0, 0, 25)], state := .DATA }
          (some 5) (600, 605)).2.countP isGapAnn = 1) ∧
    (processPulse 5 3 { initState with bits := [(0, 0, 25)], state := .DATA }
        (some 5) (30, 35) =
      classifyStep 5 3 { initState with bits := [(0, 0, 25)], state := .DATA }
        30 35 ∧
      (processPulse 5 3 { initState with bits := [(0, 0, 25)], state := .DATA }
          (some 5) (30, 35)).2.countP isGapAnn = 0) :=
  ⟨(swire_C7 5 3 { initState with bits := [(0, 0, 25)], state := .DATA }
      5 600 605).1 (by norm_num) (Or.inl (by simp [initState]))
      (by norm_num),
   (swire_C7 5 3 { initState with bits := [(0, 0, 25)], state := .DATA }
      5 30 35).2 (Or.inr (by norm_num))⟩

/-- C8: a timing error increments the error counter and a valid pulse
resets it to 0; on the third consecutive timing error the counter reaches 3
and a forced resynchronization clears the bit buffer, error counter and
direction and sets the state to Idle, with no event beyond the three
pulses' own single error events. -/
theorem swire_C8 (u : ℚ) (w : Nat) (s : DState) (fall rise : Int)
    (p1 p2 p3 : Int × Int) :
    (classifyLow u ((rise - fall : Int) : ℚ) = none →
      classifyStep u w s fall rise =
        (if s.errors + 1 ≥ 3 then
           { s with bits := [], errors := 0, state := .IDLE, is_read := false }
         else { s with errors := s.errors + 1 },
         [⟨fall, rise, ANN_ERROR, ["Bad timing", "TIME"]⟩])) ∧
    (∀ b, classifyLow u ((rise - fall : Int) : ℚ) = some b →
      (classifyStep u w s fall rise).1.errors = 0) ∧
    (s.errors = 0 →
      classifyLow u ((p1.2 - p1.1 : Int) : ℚ) = none →
      classifyLow u ((p2.2 - p2.1 : Int) : ℚ) = none →
      classifyLow u ((p3.2 - p3.1 : Int) : ℚ) = none →
      ((p2.1 - p1.2 : Int) : ℚ) ≤ u * 10 →
      ((p3.1 - p2.2 : Int) : ℚ) ≤ u * 10 →
      (runPulses u w s none [p1]).1.errors = 1 ∧
      (runPulses u w s none [p1, p2]).1.errors = 2 ∧
      runPulses u w s none [p1, p2, p3] =
        ({ s with bits := [], errors := 0, state := .IDLE, is_read := false },
         [⟨p1.1, p1.2, ANN_ERROR, ["Bad timing", "TIME"]⟩,
          ⟨p2.1, p2.2, ANN_ERROR, ["Bad timing", "TIME"]⟩,
          ⟨p3.1, p3.2, ANN_ERROR, ["Bad timing", "TIME"]⟩])) := by
  refine ⟨?_, ?_, ?_⟩
  · intro h
    rw [classifyStep_invalid u w s fall rise h]
    rfl
  · intro b h
    exact classify_errors_zero u w s fall rise b h
  · intro h0 h1 h2 h3 hg2 hg3
    have pp1 : processPulse u w s none p1 =
        ({ s with errors := 1 },
         [⟨p1.1, p1.2, ANN_ERROR, ["Bad timing", "TIME"]⟩]) := by
      rw [processPulse_of_gapCheck u w s none p1 rfl,
        classifyStep_invalid u w s p1.1 p1.2 h1, h0]
      norm_num
    have g2 : gapCheck u { s with errors := 1 } (some p1.2) p2.1 =
        ({ s with errors := 1 }, []) := by
      apply gapCheck_noFire
      rintro ⟨-, -, hgt⟩
      exact absurd hgt (not_lt.mpr hg2)
    have pp2 : processPulse u w { s with errors := 1 } (some p1.2) p2 =
        ({ s with errors := 2 },
         [⟨p2.1, p2.2, ANN_ERROR, ["Bad timing", "TIME"]⟩]) := by
      rw [processPulse_of_gapCheck u w _ (some p1.2) p2 g2,
        classifyStep_invalid u w _ p2.1 p2.2 h2]
      norm_num
    have g3 : gapCheck u { s with errors := 2 } (some p2.2) p3.1 =
        ({ s with errors := 2 }, []) := by
      apply gapCheck_noFire
      rintro ⟨-, -, hgt⟩
      exact absurd hgt (not_lt.mpr hg3)
    have pp3 : processPulse u w { s with errors := 2 } (some p2.2) p3 =
        ({ s with bits := [], errors := 0, state := .IDLE, is_read := false },
         [⟨p3.1, p3.2, ANN_ERROR, ["Bad timing", "TIME"]⟩]) := by
      rw [processPulse_of_gapCheck u w _ (some p2.2) p3 g3,
        classifyStep_invalid u w _ p3.1 p3.2 h3]
      norm_num
      rfl
    refine ⟨?_, ?_, ?_⟩
    · simp [runPulses, pp1]
    · simp [runPulses, pp1, pp2]
    · simp [runPulses, pp1, pp2, pp3]

theorem swire_C8_witness :
    (runPulses 5 3 initState none [((0 : Int), (2 : Int))]).1.errors = 1 ∧
    (runPulses 5 3 initState none
        [((0 : Int), (2 : Int)), (10, 12)]).1.errors = 2 ∧
    runPulses 5 3 initState none [((0 : Int), (2 : Int)), (10, 12), (20, 22)] =
      ({ initState with
          bits := [], errors := 0, state := .IDLE, is_read := false },
       [⟨0, 2, ANN_ERROR, ["Bad timing", "TIME"]⟩,
        ⟨10, 12, ANN_ERROR, ["Bad timing", "TIME"]⟩,
        ⟨20, 22, ANN_ERROR, ["Bad timing", "TIME"]⟩]) :=
  (swire_C8 5 3 initState 0 2 (0, 2) (10, 12) (20, 22)).2.2 rfl
    (by norm_num [classifyLow, validLow0, validLow1])
    (by norm_num [classifyLow, validLow0, validLow1])
    (by norm_num [classifyLow, validLow0, validLow1])
    (by norm_num) (by norm_num)

/-- C9: when 9 bits are already buffered on the master path, the next valid
pulse triggers the interpretation of the buffered byte and is itself
discarded: the step result equals `decode_byte` applied to the buffered
state, the buffer is left empty, and no bit annotation is produced;
whereas with 8 bits buffered the pulse is merely appended as a bit, with
no byte interpretation. -/
theorem swire_C9 (u : ℚ) (w : Nat) (s : DState) (fall rise : Int) (b : Nat)
    (hst : isMasterSt s.state = true)
    (h : classifyLow u ((rise - fall : Int) : ℚ) = some b) :
    (s.bits.length = 9 →
      classifyStep u w s fall rise =
        ((decode_byte w { s with errors := 0 }).1,
         (decode_byte w { s with errors := 0 }).2.1) ∧
      (classifyStep u w s fall rise).1.bits = [] ∧
      (classifyStep u w s fall rise).2.countP
          (fun a => a.idx == ANN_BIT || a.idx == ANN_CMD_BIT) = 0) ∧
    (s.bits.length = 8 →
      classifyStep u w s fall rise =
        ({ s with errors := 0, bits := s.bits ++ [(b, fall, bitEnd u fall)] },
         [⟨fall, bitEnd u fall, ANN_BIT, [toString b]⟩])) := by
  constructor
  · intro h9
    have hd := classifyStep_master_decode u w s fall rise b hst h9 h
    refine ⟨hd, ?_, ?_⟩
    · rw [hd]
      exact decode_byte_bits_nil w _ (by simpa using h9)
    · rw [hd]
      exact countP_bit_byte w _
  · intro h8
    have hd := classifyStep_master_append u w s fall rise b hst (by omega) h
    rw [hd]
    have : ¬ s.bits.length = 0 := by omega
    simp [this]

theorem swire_C9_witness :
    classifyStep 5 3
        { initState with
            bits := [(1, 0, 25), (0, 25, 50), (1, 50, 75), (0, 75, 100),
              (1, 100, 125), (1, 125, 150), (0, 150, 175), (1, 175, 200),
              (0, 200, 225)] }
        225 230 =
      ((decode_byte 3
          { ({ initState with
                bits := [(1, 0, 25), (0, 25, 50), (1, 50, 75), (0, 75, 100),
                  (1, 100, 125), (1, 125, 150), (0, 150, 175), (1, 175, 200),
                  (0, 200, 225)] } : DState) with errors := 0 }).1,
       (decode_byte 3
          { ({ initState with
                bits := [(1, 0, 25), (0, 25, 50), (1, 50, 75), (0, 75, 100),
                  (1, 100, 125), (1, 125, 150), (0, 150, 175), (1, 175, 200),
                  (0, 200, 225)] } : DState) with errors := 0 }).2.1) ∧
    (classifyStep 5 3
        { initState with
            bits := [(1, 0, 25), (0, 25, 50), (1, 50, 75), (0, 75, 100),
              (1, 100, 125), (1, 125, 150), (0, 150, 175), (1, 175, 200),
              (0, 200, 225)] }
        225 230).1.bits = [] ∧
    (classifyStep 5 3
        { initState with
            bits := [(1, 0, 25), (0, 25, 50), (1, 50, 75), (0, 75, 100),
              (1, 100, 125), (1, 125, 150), (0, 150, 175), (1, 175, 200),
              (0, 200, 225)] }
        225 230).2.countP
        (fun a => a.idx == ANN_BIT || a.idx == ANN_CMD_BIT) = 0 :=
  (swire_C9 5 3
    { initState with
        bits := [(1, 0, 25), (0, 25, 50), (1, 50, 75), (0, 75, 100),
          (1, 100, 125), (1, 125, 150), (0, 150, 175), (1, 175, 200),
          (0, 200, 225)] }
    225 230 0 rfl (by norm_num [classifyLow, validLow0, validLow1])).1 rfl

/-- C3 (counterexample): a master byte with cmd = 1 and value 0xFF
completing while Idle does not produce an error event at all — it produces
an END event — contradicting the claim that every non-START byte completing
in Idle yields a missing-START error. -/
theorem swire_C3_counterexample :
    (decode_byte 3
        { initState with
            bits := [(1, 0, 25), (1, 25, 50), (1, 50, 75), (1, 75, 100),
              (1, 100, 125), (1, 125, 150), (1, 150, 175), (1, 175, 200),
              (1, 200, 225)] }).2.1.countP (fun a => a.idx == ANN_ERROR) = 0 ∧
    (decode_byte 3
        { initState with
            bits := [(1, 0, 25), (1, 25, 50), (1, 50, 75), (1, 75, 100),
              (1, 100, 125), (1, 125, 150), (1, 150, 175), (1, 175, 200),
              (1, 200, 225)] }).2.1.countP (fun a => a.idx == ANN_END) = 1 ∧
    (decode_byte 3
        { initState with
            bits := [(1, 0, 25), (1, 25, 50), (1, 50, 75), (1, 75, 100),
              (1, 100, 125), (1, 125, 150), (1, 150, 175), (1, 175, 200),
              (1, 200, 225)] }).1.state = St.IDLE := by
  decide

/-- C3 (amended): when a 9-bit master byte completes while Idle and the
byte is not START, the decoder discards the buffered bits and remains Idle;
a cmd = 0 byte yields a missing-START error event, a cmd = 1 byte with
value 0xFF yields an END event (and no error), and a cmd = 1 byte with any
other value yields an invalid-command error event. -/
theorem swire_C3_amended (w : Nat) (s : DState) (hst : s.state = .IDLE)
    (hlen : s.bits.length = 9)
    (hns : ¬ ((s.bits.getD 0 d0).1 = 1 ∧
        byteFold ((s.bits.drop 1).take 8) = 0x5A)) :
    ((s.bits.getD 0 d0).1 ≠ 1 →
      decode_byte w s =
        ({ s with bits := [] },
         [⟨(s.bits.getD 0 d0).2.1, (s.bits.getD 8 d0).2.2, ANN_BYTE,
           [pyHex 2 (byteFold ((s.bits.drop 1).take 8))]⟩,
          ⟨(s.bits.getD 0 d0).2.1, (s.bits.getD 8 d0).2.2, ANN_ERROR,
           ["Missing START", "NO START"]⟩], true)) ∧
    ((s.bits.getD 0 d0).1 = 1 → byteFold ((s.bits.drop 1).take 8) = 0xFF →
      decode_byte w s =
        ({ s with state := .IDLE, is_read := false, bits := [] },
         [⟨(s.bits.getD 0 d0).2.1, (s.bits.getD 8 d0).2.2, ANN_BYTE,
           [pyHex 2 0xFF]⟩,
          ⟨(s.bits.getD 0 d0).2.1, (s.bits.getD 8 d0).2.2, ANN_END,
           ["END", "E"]⟩], true)) ∧
    ((s.bits.getD 0 d0).1 = 1 → byteFold ((s.bits.drop 1).take 8) ≠ 0xFF →
      decode_byte w s =
        ({ s with state := .IDLE, is_read := false, bits := [] },
         [⟨(s.bits.getD 0 d0).2.1, (s.bits.getD 8 d0).2.2, ANN_BYTE,
           [pyHex 2 (byteFold ((s.bits.drop 1).take 8))]⟩,
          ⟨(s.bits.getD 0 d0).2.1, (s.bits.getD 8 d0).2.2, ANN_ERROR,
           ["Invalid CMD: " ++ pyHex 2 (byteFold ((s.bits.drop 1).take 8)),
            "BAD CMD"]⟩], true)) ∧
    (decode_byte w s).1.state = .IDLE ∧ (decode_byte w s).1.bits = [] := by
  have hnl : ¬ s.bits.length < 9 := by omega
  refine ⟨?_, ?_, ?_, ?_, ?_⟩
  · intro hc
    simp only [decode_byte]
    rw [if_neg hnl, if_neg (fun hh => hc hh.1), if_neg hc, if_pos hst]
  · intro hc hv
    simp only [decode_byte]
    rw [if_neg hnl, if_neg hns, if_pos hc, if_pos hv, hv]
  · intro hc hv
    simp only [decode_byte]
    rw [if_neg hnl, if_neg hns, if_pos hc, if_neg hv]
  · simp only [decode_byte]
    split_ifs <;> simp_all
  · simp only [decode_byte]
    split_ifs <;> simp_all

theorem swire_C3_amended_witness :
    St.IDLE = St.IDLE ∧
      decode_byte 3
          { initState with
              bits := [(1, 0, 25), (1, 25, 50), (1, 50, 75), (1, 75, 100),
                (1, 100, 125), (1, 125, 150), (1, 150, 175), (1, 175, 200),
                (1, 200, 225)] } =
        ({ ({ initState with
              bits := [(1, 0, 25), (1, 25, 50), (1, 50, 75), (1, 75, 100),
                (1, 100, 125), (1, 125, 150), (1, 150, 175), (1, 175, 200),
                (1, 200, 225)] } : DState) with
            state := .IDLE, is_read := false, bits := [] },
         [⟨0, 225, ANN_BYTE, [pyHex 2 0xFF]⟩,
          ⟨0, 225, ANN_END, ["END", "E"]⟩], true) :=
  ⟨rfl,
   by
    have h := (swire_C3_amended 3
      { initState with
          bits := [(1, 0, 25), (1, 25, 50), (1, 50, 75), (1, 75, 100),
            (1, 100, 125), (1, 125, 150), (1, 150, 175), (1, 175, 200),
            (1, 200, 225)] }
      rfl rfl (by decide)).2.1 rfl (by decide)
    simpa using h⟩

/-- C10: decoding a fixed edge stream with fixed options and sample rate
from a freshly constructed decoder state is a pure function of those
inputs: two runs produce identical ordered annotation lists. -/
theorem swire_C10 (samplerate : Option ℚ) (bitrate addr_bytes : Nat)
    (ps : List (Int × Int)) (s1 s2 : DState)
    (h1 : s1 = initState) (h2 : s2 = initState) :
    (∀ u : ℚ,
      runPulses u addr_bytes s1 none ps = runPulses u addr_bytes s2 none ps) ∧
    decode samplerate bitrate addr_bytes ps =
      decode samplerate bitrate addr_bytes ps := by
  subst h1
  subst h2
  exact ⟨fun _ => rfl, rfl⟩

theorem swire_C10_witness :
    (∀ u : ℚ,
      runPulses u 3 initState none [((0 : Int), (5 : Int))] =
        runPulses u 3 initState none [((0 : Int), (5 : Int))]) ∧
    decode (some 50) 2 3 [((0 : Int), (5 : Int))] =
      decode (some 50) 2 3 [((0 : Int), (5 : Int))] :=
  swire_C10 (some 50) 2 3 [((0 : Int), (5 : Int))] initState initState rfl rfl

end SWire
